import Mathlib

set_option maxRecDepth 100000

/-!
Shallow embedding of the core of the `gb-emu` Game Boy emulator:
the `gb_cpu` register file and execution engine, and the `gb_core` PPU
(memory-mapped I/O, OAM DMA, and the scanline/frame step machine).

Machine integers are modelled as `Nat` with explicit truncation
(`% 256`, `% 65536`, or bit masks) exactly where the Rust source wraps.
Fallible operations (panics, `unreachable!`) are modelled with `Option`
or an explicit `panicked` result constructor.
-/

namespace GbSpec

/-- Truncation to 8 bits, as Rust `as u8` / `wrapping` arithmetic on `u8`. -/
def u8 (n : Nat) : Nat := n % 256

/-- Truncation to 16 bits, as Rust `as u16` / `wrapping` arithmetic on `u16`. -/
def u16 (n : Nat) : Nat := n % 65536

/-- Wrapping 16-bit subtraction `a.wrapping_sub(b)` for `b ≤ 65536`. -/
def wsub16 (a b : Nat) : Nat := (a + 65536 - b) % 65536

/-- Value of a byte reinterpreted as Rust `i8` (two's complement). -/
def i8val (d : Nat) : Int := if d < 128 then (d : Int) else (d : Int) - 256

/-- `(pc as i16 + offset) as u16`: add a signed offset to a 16-bit value, wrapping. -/
def wadd16i (pc : Nat) (off : Int) : Nat := (((pc : Int) + off) % 65536).toNat

/-!
## Flag register (gb_cpu/src/registers.rs, `FRegister`)

`FRegister` is a newtype over `u8`; we represent its payload directly as a `Nat`.
-/

/-- `FRegister::EMPTY`. -/
def FRegister.EMPTY : Nat := 0
/-- `FRegister::ZERO` (bit 7). -/
def FRegister.ZERO : Nat := 0x80
/-- `FRegister::NEGATIVE` (bit 6). -/
def FRegister.NEGATIVE : Nat := 0x40
/-- `FRegister::HALFCARRY` (bit 5). -/
def FRegister.HALFCARRY : Nat := 0x20
/-- `FRegister::CARRY` (bit 4). -/
def FRegister.CARRY : Nat := 0x10

/-- `FRegister::contains`: true if ANY flags of the parameter are set. -/
def fcontains (f other : Nat) : Bool := f &&& other != 0

/-- `impl Not for FRegister`: `FRegister((!self.0) & 0xF0)` (8-bit complement). -/
def fnot (f : Nat) : Nat := (f ^^^ 0xFF) &&& 0xF0

/-- `FRegister::set`: `self = self | other`. -/
def fset (f other : Nat) : Nat := f ||| other

/-- `FRegister::unset`: `self = self & !other`. -/
def funset (f other : Nat) : Nat := f &&& fnot other

/-- `FRegister::set_value`: `if value { set } else { unset }`. -/
def fsetValue (f flags : Nat) (value : Bool) : Nat :=
  if value then fset f flags else funset f flags

/-- `impl From<u8> for FRegister`: `FRegister(v & 0xF0)`. -/
def fromU8 (v : Nat) : Nat := v &&& 0xF0

/-!
## Register file (gb_cpu/src/registers.rs, `Registers`)
-/

/-- The CPU register file. Each 8-bit register holds a `Nat` kept below 256;
`sp`/`pc` are kept below 65536. -/
structure Registers where
  a : Nat
  f : Nat
  b : Nat
  c : Nat
  d : Nat
  e : Nat
  h : Nat
  l : Nat
  sp : Nat
  pc : Nat
  deriving Repr, DecidableEq

/-- `get_af`: `(a as u16) << 8 | u8::from(f) as u16`. -/
def Registers.get_af (r : Registers) : Nat := (r.a <<< 8) ||| r.f

/-- `set_af`: `a = (v >> 8) as u8; f = ((v & 0xFF) as u8).into()`. -/
def Registers.set_af (r : Registers) (v : Nat) : Registers :=
  { r with a := u8 (v >>> 8), f := fromU8 (v &&& 0xFF) }

/-- `get_bc` (high byte `b`, low byte `c`). -/
def Registers.get_bc (r : Registers) : Nat := (r.b <<< 8) ||| r.c

/-- `set_bc`. -/
def Registers.set_bc (r : Registers) (v : Nat) : Registers :=
  { r with b := u8 (v >>> 8), c := v &&& 0xFF }

/-- `get_de`. -/
def Registers.get_de (r : Registers) : Nat := (r.d <<< 8) ||| r.e

/-- `set_de`. -/
def Registers.set_de (r : Registers) (v : Nat) : Registers :=
  { r with d := u8 (v >>> 8), e := v &&& 0xFF }

/-- `get_hl`. -/
def Registers.get_hl (r : Registers) : Nat := (r.h <<< 8) ||| r.l

/-- `set_hl`. -/
def Registers.set_hl (r : Registers) (v : Nat) : Registers :=
  { r with h := u8 (v >>> 8), l := v &&& 0xFF }

/-- The `Cpu` state used by gb_cpu/src/execute.rs: the register file plus IME. -/
structure Cpu where
  registers : Registers
  ime : Bool
  deriving Repr, DecidableEq

/-!
## ALU (gb_cpu/src/execute.rs, `Cpu::do_math`, `Cpu::daa`, `Cpu::do_rotate_shift`)
-/

/-- `MathOperation` (ADD/ADC/SUB/SBC/AND/XOR/OR/CP). -/
inductive MathOperation where
  | Add | Adc | Sub | Sbc | And | Xor | Or | Cp
  deriving Repr, DecidableEq

/-- `Cpu::do_math`: perform an ALU operation on the accumulator and update flags. -/
def doMath (regs : Registers) (v : Nat) (op : MathOperation) : Registers :=
  match op with
  | .Add =>
    let a := regs.a
    let sum := u8 (a + v)
    let overflow := decide (255 < a + v)
    let regs := { regs with a := sum }
    let f := regs.f
    let f := funset f FRegister.NEGATIVE
    let f := fsetValue f FRegister.ZERO (sum == 0)
    let f := fsetValue f FRegister.HALFCARRY (decide (0x10 ≤ (a &&& 0x0F) + (v &&& 0x0F)))
    let f := fsetValue f FRegister.CARRY overflow
    { regs with f := f }
  | .Adc =>
    let a := regs.a
    let vc := if fcontains regs.f FRegister.CARRY then v + 1 else v
    let sum := a + vc
    let carry := decide (0x100 ≤ sum)
    let bytesum := u8 sum
    let al := a &&& 0x0F
    let vl := v &&& 0x0F
    let vlc := if fcontains regs.f FRegister.CARRY then vl + 1 else vl
    let halfcarry := decide (0x10 ≤ vlc + al)
    let regs := { regs with a := bytesum }
    let f := regs.f
    let f := funset f FRegister.NEGATIVE
    let f := fsetValue f FRegister.ZERO (bytesum == 0)
    let f := fsetValue f FRegister.HALFCARRY halfcarry
    let f := fsetValue f FRegister.CARRY carry
    { regs with f := f }
  | .Sub =>
    let a := regs.a
    let nv := u8 ((v ^^^ 0xFF) + 1)
    let sum := u8 (a + nv)
    let regs := { regs with a := sum }
    let f := regs.f
    let f := fset f FRegister.NEGATIVE
    let f := fsetValue f FRegister.ZERO (sum == 0)
    let f := fsetValue f FRegister.HALFCARRY (decide ((a &&& 0x0F) < (v &&& 0x0F)))
    let f := fsetValue f FRegister.CARRY (decide (a < v))
    { regs with f := f }
  | .Sbc =>
    let a := regs.a
    let vc := if fcontains regs.f FRegister.CARRY then v + 1 else v
    let carry := decide ((a : Int) < (vc : Int))
    let sum : Int := (a : Int) - (vc : Int)
    let bytesum := (sum % 65536 % 256).toNat
    let al := a &&& 0x0F
    let vl := v &&& 0x0F
    let vlc := if fcontains regs.f FRegister.CARRY then vl + 1 else vl
    let halfcarry := decide (al < vlc)
    let regs := { regs with a := bytesum }
    let f := regs.f
    let f := fset f FRegister.NEGATIVE
    let f := fsetValue f FRegister.ZERO (bytesum == 0)
    let f := fsetValue f FRegister.HALFCARRY halfcarry
    let f := fsetValue f FRegister.CARRY carry
    { regs with f := f }
  | .And =>
    let newA := regs.a &&& v
    let regs := { regs with a := newA }
    let f := regs.f
    let f := funset f FRegister.NEGATIVE
    let f := fsetValue f FRegister.ZERO (newA == 0)
    let f := fset f FRegister.HALFCARRY
    let f := funset f FRegister.CARRY
    { regs with f := f }
  | .Xor =>
    let newA := regs.a ^^^ v
    let regs := { regs with a := newA }
    let f := regs.f
    let f := funset f FRegister.NEGATIVE
    let f := fsetValue f FRegister.ZERO (newA == 0)
    let f := funset f FRegister.HALFCARRY
    let f := funset f FRegister.CARRY
    { regs with f := f }
  | .Or =>
    let newA := regs.a ||| v
    let regs := { regs with a := newA }
    let f := regs.f
    let f := funset f FRegister.NEGATIVE
    let f := fsetValue f FRegister.ZERO (newA == 0)
    let f := funset f FRegister.HALFCARRY
    let f := funset f FRegister.CARRY
    { regs with f := f }
  | .Cp =>
    let a := regs.a
    let nv := u8 ((v ^^^ 0xFF) + 1)
    let sum := u8 (a + nv)
    let f := regs.f
    let f := fset f FRegister.NEGATIVE
    let f := fsetValue f FRegister.ZERO (sum == 0)
    let f := fsetValue f FRegister.HALFCARRY (decide ((a &&& 0x0F) < (v &&& 0x0F)))
    let f := fsetValue f FRegister.CARRY (decide (a < v))
    { regs with f := f }

/-- `Cpu::daa`. -/
def daa (regs : Registers) : Registers :=
  let f := regs.f
  let a := regs.a
  let (a, f) :=
    if !(fcontains f FRegister.NEGATIVE) then
      let (a, f) :=
        if fcontains f FRegister.CARRY || decide (0x99 < a) then
          (u8 (a + 0x60), fset f FRegister.CARRY)
        else (a, f)
      let a := if fcontains f FRegister.HALFCARRY || decide (0x09 < (a &&& 0x0F)) then
          u8 (a + 0x06)
        else a
      (a, f)
    else
      let a := if fcontains f FRegister.CARRY then u8 (a + 256 - 0x60) else a
      let a := if fcontains f FRegister.HALFCARRY then u8 (a + 256 - 0x06) else a
      (a, f)
  let f := fsetValue f FRegister.ZERO (a == 0)
  let f := funset f FRegister.HALFCARRY
  { regs with a := a, f := f }

/-- `RotateShiftOperation`. -/
inductive RotateShiftOperation where
  | RLC | RRC | RL | RR | SLA | SRA | SWAP | SRL
  deriving Repr, DecidableEq

/-- `u8::rotate_left(1)`. -/
def rotl1 (v : Nat) : Nat := ((v <<< 1) &&& 0xFF) ||| (v >>> 7)

/-- `u8::rotate_right(1)`. -/
def rotr1 (v : Nat) : Nat := (v >>> 1) ||| ((v &&& 1) <<< 7)

/-- `Cpu::do_rotate_shift`: rotate/shift `v`, update flags, return the new value. -/
def doRotateShift (regs : Registers) (v : Nat) (op : RotateShiftOperation) :
    Registers × Nat :=
  match op with
  | .RLC =>
    let c := decide (v &&& 0x80 ≠ 0)
    let nv := rotl1 v
    let z := nv == 0
    let f := regs.f
    let f := fsetValue f FRegister.ZERO z
    let f := funset f FRegister.NEGATIVE
    let f := funset f FRegister.HALFCARRY
    let f := fsetValue f FRegister.CARRY c
    ({ regs with f := f }, nv)
  | .RRC =>
    let c := decide (v &&& 0x01 ≠ 0)
    let nv := rotr1 v
    let z := nv == 0
    let f := regs.f
    let f := fsetValue f FRegister.ZERO z
    let f := funset f FRegister.NEGATIVE
    let f := funset f FRegister.HALFCARRY
    let f := fsetValue f FRegister.CARRY c
    ({ regs with f := f }, nv)
  | .RL =>
    let rotateIn := if fcontains regs.f FRegister.CARRY then 1 else 0
    let c := decide (v &&& 0x80 ≠ 0)
    let nv := (v <<< 1) &&& 0xFF
    let nv := nv ||| rotateIn
    let z := nv == 0
    let f := regs.f
    let f := fsetValue f FRegister.ZERO z
    let f := funset f FRegister.NEGATIVE
    let f := funset f FRegister.HALFCARRY
    let f := fsetValue f FRegister.CARRY c
    ({ regs with f := f }, nv)
  | .RR =>
    let rotateIn := if fcontains regs.f FRegister.CARRY then 0x80 else 0x00
    let c := decide (v &&& 0x01 ≠ 0)
    let nv := v >>> 1
    let nv := nv ||| rotateIn
    let z := nv == 0
    let f := regs.f
    let f := fsetValue f FRegister.ZERO z
    let f := funset f FRegister.NEGATIVE
    let f := funset f FRegister.HALFCARRY
    let f := fsetValue f FRegister.CARRY c
    ({ regs with f := f }, nv)
  | .SLA =>
    let c := decide (v &&& 0x80 ≠ 0)
    let nv := (v <<< 1) &&& 0xFF
    let z := nv == 0
    let f := regs.f
    let f := fsetValue f FRegister.ZERO z
    let f := funset f FRegister.NEGATIVE
    let f := funset f FRegister.HALFCARRY
    let f := fsetValue f FRegister.CARRY c
    ({ regs with f := f }, nv)
  | .SRA =>
    let msb := v &&& 0x80
    let c := decide (v &&& 0x01 ≠ 0)
    let nv := v >>> 1
    let nv := nv ||| msb
    let z := nv == 0
    let f := regs.f
    let f := fsetValue f FRegister.ZERO z
    let f := funset f FRegister.NEGATIVE
    let f := funset f FRegister.HALFCARRY
    let f := fsetValue f FRegister.CARRY c
    ({ regs with f := f }, nv)
  | .SWAP =>
    let lo := v &&& 0x0F
    let hi := (v &&& 0xF0) >>> 4
    let nv := (lo <<< 4) ||| hi
    let z := nv == 0
    let f := regs.f
    let f := fsetValue f FRegister.ZERO z
    let f := funset f FRegister.NEGATIVE
    let f := funset f FRegister.HALFCARRY
    let f := funset f FRegister.CARRY
    ({ regs with f := f }, nv)
  | .SRL =>
    let c := decide (v &&& 0x01 ≠ 0)
    let nv := v >>> 1
    let z := nv == 0
    let f := regs.f
    let f := fsetValue f FRegister.ZERO z
    let f := funset f FRegister.NEGATIVE
    let f := funset f FRegister.HALFCARRY
    let f := fsetValue f FRegister.CARRY c
    ({ regs with f := f }, nv)

/-- `FlagCondition`. -/
inductive FlagCondition where
  | NZ | Z | NC | C
  deriving Repr, DecidableEq

/-- `Cpu::test_condition`. -/
def testCondition (cpu : Cpu) (c : FlagCondition) : Bool :=
  match c with
  | .NZ => !(fcontains cpu.registers.f FRegister.ZERO)
  | .Z => fcontains cpu.registers.f FRegister.ZERO
  | .NC => !(fcontains cpu.registers.f FRegister.CARRY)
  | .C => fcontains cpu.registers.f FRegister.CARRY

/-!
## Pin types (gb_cpu interface)
-/

/-- `CpuInputPins`: the byte returned by last cycle's bus request plus the five
level-sensitive interrupt request lines. -/
structure CpuInputPins where
  data : Nat
  interrupt_40h : Bool
  interrupt_48h : Bool
  interrupt_50h : Bool
  interrupt_58h : Bool
  interrupt_60h : Bool
  deriving Repr, DecidableEq

instance : Inhabited CpuInputPins := ⟨⟨0, false, false, false, false, false⟩⟩

/-- `CpuOutputPins`: a bus request, `Read{addr}` or `Write{addr, data}`. -/
inductive CpuOutputPins where
  | Read (addr : Nat)
  | Write (addr : Nat) (data : Nat)
  deriving Repr, DecidableEq

/-!
## Opcode decoding

Modelled from the spec: the `decode` module of `gb_cpu` is not under `src/`;
only its use sites are.  The spec says instruction semantics follow the
published GBZ80 decoding table with the x/y/z/p/q bitfield split of the
opcode, and `execute.rs` consumes `opcode.x()/y()/z()/p()/q()` and the
`r`/`rp`/`rp2`/`cc`/`alu`/`rot` tables of that published table.
-/

/-- Modelled from the spec: opcode field `x` = bits 6..7. -/
def opx (op : Nat) : Nat := (op >>> 6) &&& 3

/-- Modelled from the spec: opcode field `y` = bits 3..5. -/
def opy (op : Nat) : Nat := (op >>> 3) &&& 7

/-- Modelled from the spec: opcode field `z` = bits 0..2. -/
def opz (op : Nat) : Nat := op &&& 7

/-- Modelled from the spec: opcode field `p` = `y >> 1`. -/
def opp (op : Nat) : Nat := opy op >>> 1

/-- Modelled from the spec: opcode field `q` = `y & 1`. -/
def opq (op : Nat) : Nat := opy op &&& 1

/-- `LoadDest`: 8-bit destinations of the `r` table. -/
inductive LoadDest where
  | B | C | D | E | H | L | IndHL | A
  deriving Repr, DecidableEq

/-- `LoadDest16Bit`: 16-bit register pairs of the `rp`/`rp2` tables. -/
inductive LoadDest16Bit where
  | AF | BC | DE | HL | SP
  deriving Repr, DecidableEq

/-- Modelled from the spec: the `r` table (0=B 1=C 2=D 3=E 4=H 5=L 6=(HL) 7=A). -/
def decodeR (n : Nat) : LoadDest :=
  match n with
  | 0 => .B | 1 => .C | 2 => .D | 3 => .E | 4 => .H | 5 => .L | 6 => .IndHL | _ => .A

/-- Modelled from the spec: the `rp` table (0=BC 1=DE 2=HL 3=SP). -/
def decodeRp (n : Nat) : LoadDest16Bit :=
  match n with
  | 0 => .BC | 1 => .DE | 2 => .HL | _ => .SP

/-- Modelled from the spec: the `rp2` table (0=BC 1=DE 2=HL 3=AF). -/
def decodeRp2 (n : Nat) : LoadDest16Bit :=
  match n with
  | 0 => .BC | 1 => .DE | 2 => .HL | _ => .AF

/-- Modelled from the spec: the `cc` table (0=NZ 1=Z 2=NC 3=C). -/
def decodeCc (n : Nat) : FlagCondition :=
  match n with
  | 0 => .NZ | 1 => .Z | 2 => .NC | _ => .C

/-- Modelled from the spec: the `alu` table (0=ADD 1=ADC 2=SUB 3=SBC 4=AND 5=XOR 6=OR 7=CP). -/
def decodeAlu (n : Nat) : MathOperation :=
  match n with
  | 0 => .Add | 1 => .Adc | 2 => .Sub | 3 => .Sbc | 4 => .And | 5 => .Xor | 6 => .Or | _ => .Cp

/-- Modelled from the spec: the `rot` table (0=RLC 1=RRC 2=RL 3=RR 4=SLA 5=SRA 6=SWAP 7=SRL). -/
def decodeRot (n : Nat) : RotateShiftOperation :=
  match n with
  | 0 => .RLC | 1 => .RRC | 2 => .RL | 3 => .RR | 4 => .SLA | 5 => .SRA | 6 => .SWAP | _ => .SRL

/-!
## CPU execution engine (gb_cpu/src/execute.rs, `cpu_runner_gen`)

The stackful coroutine is embedded as a big-step interpreter.  Each
`cpu_yield!` is modelled as: emit one `CpuOutputPins`, and consume the next
`CpuInputPins` from an explicit input list (the bus's response to that
output).  `panic!` arms are modelled with the `panicked` constructor.
-/

/-- Result of one iteration of the `cpu_runner_gen` loop: either the state
at the next loop top together with the bus requests yielded, or a panic. -/
inductive StepResult where
  | ok (cpu : Cpu) (halted : Bool) (outs : List CpuOutputPins) (ins : List CpuInputPins)
  | panicked (outs : List CpuOutputPins)
  deriving Repr, DecidableEq

/-- Prepend already-yielded bus requests to the requests of a `StepResult`. -/
def prependOuts (pre : List CpuOutputPins) (r : StepResult) : StepResult :=
  match r with
  | .ok cpu h outs ins => .ok cpu h (pre ++ outs) ins
  | .panicked outs => .panicked (pre ++ outs)

/-- `Cpu::fetch_byte`: read at PC, then increment PC (wrapping). -/
def fetchByte (cpu : Cpu) : Cpu × CpuOutputPins :=
  let pc := cpu.registers.pc
  ({ cpu with registers := { cpu.registers with pc := u16 (pc + 1) } },
    CpuOutputPins.Read pc)

/-- `Cpu::store_16_bits`. -/
def store16 (cpu : Cpu) (v : Nat) (dest : LoadDest16Bit) : Cpu :=
  match dest with
  | .AF => { cpu with registers := cpu.registers.set_af v }
  | .BC => { cpu with registers := cpu.registers.set_bc v }
  | .DE => { cpu with registers := cpu.registers.set_de v }
  | .HL => { cpu with registers := cpu.registers.set_hl v }
  | .SP => { cpu with registers := { cpu.registers with sp := v } }

/-- `Cpu::read_16_bits`. -/
def read16 (cpu : Cpu) (src : LoadDest16Bit) : Nat :=
  match src with
  | .AF => cpu.registers.get_af
  | .BC => cpu.registers.get_bc
  | .DE => cpu.registers.get_de
  | .HL => cpu.registers.get_hl
  | .SP => cpu.registers.sp

/-- `read_8_bits!`: read a register of the `r` table; yields one read cycle on (HL). -/
def read8 (cpu : Cpu) (src : LoadDest) (ins : List CpuInputPins) :
    Nat × List CpuOutputPins × List CpuInputPins :=
  match src with
  | .B => (cpu.registers.b, [], ins)
  | .C => (cpu.registers.c, [], ins)
  | .D => (cpu.registers.d, [], ins)
  | .E => (cpu.registers.e, [], ins)
  | .H => (cpu.registers.h, [], ins)
  | .L => (cpu.registers.l, [], ins)
  | .IndHL =>
    ((ins.headD default).data, [CpuOutputPins.Read cpu.registers.get_hl], ins.tail)
  | .A => (cpu.registers.a, [], ins)

/-- `store_8_bits!`: store to a register of the `r` table; yields one write cycle on (HL). -/
def store8 (cpu : Cpu) (v : Nat) (dest : LoadDest) (ins : List CpuInputPins) :
    Cpu × List CpuOutputPins × List CpuInputPins :=
  match dest with
  | .B => ({ cpu with registers := { cpu.registers with b := v } }, [], ins)
  | .C => ({ cpu with registers := { cpu.registers with c := v } }, [], ins)
  | .D => ({ cpu with registers := { cpu.registers with d := v } }, [], ins)
  | .E => ({ cpu with registers := { cpu.registers with e := v } }, [], ins)
  | .H => ({ cpu with registers := { cpu.registers with h := v } }, [], ins)
  | .L => ({ cpu with registers := { cpu.registers with l := v } }, [], ins)
  | .IndHL => (cpu, [CpuOutputPins.Write cpu.registers.get_hl v], ins.tail)
  | .A => ({ cpu with registers := { cpu.registers with a := v } }, [], ins)

/-- The interrupt priority chain at the top of `cpu_runner_gen`'s loop:
lowest vector address wins. -/
def interruptVector (pins : CpuInputPins) : Option Nat :=
  if pins.interrupt_40h then some 0x40
  else if pins.interrupt_48h then some 0x48
  else if pins.interrupt_50h then some 0x50
  else if pins.interrupt_58h then some 0x58
  else if pins.interrupt_60h then some 0x60
  else none

/-- The Interrupt Service Routine of `cpu_runner_gen` (executed when IME is set):
read IF at 0xFF0F, write it back with the serviced bit cleared, push PC high
then low, jump to the vector, clear IME, and spend one NOP cycle — 5 M-cycles. -/
def serviceInterrupt (cpu : Cpu) (vector : Nat) (ins : List CpuInputPins) :
    Cpu × List CpuOutputPins × List CpuInputPins :=
  let out1 := CpuOutputPins.Read 0xFF0F
  let interrupt_flag := (ins.headD default).data
  let ins := ins.tail
  let if_mask := (1 <<< ((vector - 0x40) / 8)) ^^^ 0xFF
  let out2 := CpuOutputPins.Write 0xFF0F (interrupt_flag &&& if_mask)
  let ins := ins.tail
  let pc := cpu.registers.pc
  let pc_lo := pc &&& 0xFF
  let pc_hi := pc >>> 8
  let sp1 := wsub16 cpu.registers.sp 1
  let out3 := CpuOutputPins.Write sp1 pc_hi
  let ins := ins.tail
  let sp2 := wsub16 sp1 1
  let out4 := CpuOutputPins.Write sp2 pc_lo
  let ins := ins.tail
  let cpu := { cpu with
    registers := { cpu.registers with sp := sp2, pc := vector }, ime := false }
  let out5 := CpuOutputPins.Read 0
  let ins := ins.tail
  (cpu, [out1, out2, out3, out4, out5], ins)

/-- RLCA/RRCA/RLA/RRA: `do_rotate_shift` on A followed by masking F down to
its CARRY bit (`f.unset(f & !CARRY)`). -/
def mainRotA (cpu : Cpu) (op : RotateShiftOperation) : Cpu :=
  let a := cpu.registers.a
  let (regs, na) := doRotateShift cpu.registers a op
  let regs := { regs with a := na }
  let f := regs.f
  let f := funset f (f &&& fnot FRegister.CARRY)
  { cpu with registers := { regs with f := f } }

/-- Decode and execute one instruction whose opcode byte has just been
fetched.  Returns the state at the next loop top (`continue`), the yielded
bus requests, and the remaining inputs — or a panic for the undefined-opcode
gaps. -/
def execInstr (cpu : Cpu) (opcode : Nat) (ins : List CpuInputPins) : StepResult :=
  match opx opcode with
  | 0 =>
    match opz opcode with
    | 0 =>
      match opy opcode with
      | 0 => .ok cpu false [] ins
      | 1 =>
        -- LD (nn), SP
        let fb1 := fetchByte cpu
        let cpu := fb1.1
        let o1 := fb1.2
        let low := (ins.headD default).data
        let ins := ins.tail
        let fb2 := fetchByte cpu
        let cpu := fb2.1
        let o2 := fb2.2
        let high := (ins.headD default).data
        let ins := ins.tail
        let addr := (high <<< 8) ||| low
        let sp := cpu.registers.sp
        let sp_lo := sp &&& 0xFF
        let sp_hi := sp >>> 8
        let o3 := CpuOutputPins.Write addr sp_lo
        let ins := ins.tail
        let o4 := CpuOutputPins.Write (u16 (addr + 1)) sp_hi
        let ins := ins.tail
        .ok cpu false [o1, o2, o3, o4] ins
      | 2 =>
        -- STOP (aliased to HALT)
        .ok cpu true [] ins
      | 3 =>
        -- JR d
        let fb1 := fetchByte cpu
        let cpu := fb1.1
        let o1 := fb1.2
        let d := (ins.headD default).data
        let ins := ins.tail
        let newPc := wadd16i cpu.registers.pc (i8val d)
        let cpu := { cpu with registers := { cpu.registers with pc := newPc } }
        let o2 := CpuOutputPins.Read 0
        let ins := ins.tail
        .ok cpu false [o1, o2] ins
      | y =>
        -- JR cc, d
        let cond := decodeCc (y - 4)
        let fb1 := fetchByte cpu
        let cpu := fb1.1
        let o1 := fb1.2
        let d := (ins.headD default).data
        let ins := ins.tail
        if testCondition cpu cond then
          let newPc := wadd16i cpu.registers.pc (i8val d)
          let cpu := { cpu with registers := { cpu.registers with pc := newPc } }
          let o2 := CpuOutputPins.Read 0
          let ins := ins.tail
          .ok cpu false [o1, o2] ins
        else
          .ok cpu false [o1] ins
    | 1 =>
      if opq opcode == 0 then
        -- 16-bit LD
        let dst := decodeRp (opp opcode)
        let fb1 := fetchByte cpu
        let cpu := fb1.1
        let o1 := fb1.2
        let low := (ins.headD default).data
        let ins := ins.tail
        let fb2 := fetchByte cpu
        let cpu := fb2.1
        let o2 := fb2.2
        let high := (ins.headD default).data
        let ins := ins.tail
        let cpu := store16 cpu ((high <<< 8) ||| low) dst
        .ok cpu false [o1, o2] ins
      else
        -- 16-bit ADD
        let src := decodeRp (opp opcode)
        let hl := cpu.registers.get_hl
        let addend := read16 cpu src
        let half_carry := decide ((((hl &&& 0x0FFF) + (addend &&& 0x0FFF)) &&& 0x1000) ≠ 0)
        let carry := decide (65535 < hl + addend)
        let newHl := u16 (hl + addend)
        let o1 := CpuOutputPins.Read 0
        let ins := ins.tail
        let f := cpu.registers.f
        let f := funset f FRegister.NEGATIVE
        let f := fsetValue f FRegister.HALFCARRY half_carry
        let f := fsetValue f FRegister.CARRY carry
        let cpu := { cpu with registers := (cpu.registers.set_hl newHl) }
        let cpu := { cpu with registers := { cpu.registers with f := f } }
        .ok cpu false [o1] ins
    | 2 =>
      -- LD to/from memory at BC/DE/HL+/HL-
      let ac :=
        match opp opcode with
        | 0 => (cpu.registers.get_bc, cpu)
        | 1 => (cpu.registers.get_de, cpu)
        | 2 =>
          let a := cpu.registers.get_hl
          (a, { cpu with registers := cpu.registers.set_hl (u16 (a + 1)) })
        | _ =>
          let a := cpu.registers.get_hl
          (a, { cpu with registers := cpu.registers.set_hl (wsub16 a 1) })
      let addr := ac.1
      let cpu := ac.2
      if opq opcode == 0 then
        let o1 := CpuOutputPins.Write addr cpu.registers.a
        let ins := ins.tail
        .ok cpu false [o1] ins
      else
        let o1 := CpuOutputPins.Read addr
        let v := (ins.headD default).data
        let ins := ins.tail
        let cpu := { cpu with registers := { cpu.registers with a := v } }
        .ok cpu false [o1] ins
    | 3 =>
      -- 16 bit INC / DEC
      let dst := decodeRp (opp opcode)
      let v := read16 cpu dst
      let nv := if opq opcode == 0 then u16 (v + 1) else wsub16 v 1
      let o1 := CpuOutputPins.Read 0
      let ins := ins.tail
      let cpu := store16 cpu nv dst
      .ok cpu false [o1] ins
    | 4 =>
      -- 8 bit INC
      let dst := decodeR (opy opcode)
      let r8 := read8 cpu dst ins
      let v := r8.1
      let outs1 := r8.2.1
      let ins := r8.2.2
      let nv := u8 (v + 1)
      let z := nv == 0
      let hc := (v &&& 0xF) == 0xF
      let f := cpu.registers.f
      let f := fsetValue f FRegister.ZERO z
      let f := funset f FRegister.NEGATIVE
      let f := fsetValue f FRegister.HALFCARRY hc
      let cpu := { cpu with registers := { cpu.registers with f := f } }
      let s8 := store8 cpu nv dst ins
      let cpu := s8.1
      let outs2 := s8.2.1
      let ins := s8.2.2
      .ok cpu false (outs1 ++ outs2) ins
    | 5 =>
      -- 8 bit DEC
      let dst := decodeR (opy opcode)
      let r8 := read8 cpu dst ins
      let v := r8.1
      let outs1 := r8.2.1
      let ins := r8.2.2
      let nv := u8 (v + 255)
      let z := nv == 0
      let hc := (v &&& 0xF) == 0x0
      let f := cpu.registers.f
      let f := fsetValue f FRegister.ZERO z
      let f := fset f FRegister.NEGATIVE
      let f := fsetValue f FRegister.HALFCARRY hc
      let cpu := { cpu with registers := { cpu.registers with f := f } }
      let s8 := store8 cpu nv dst ins
      let cpu := s8.1
      let outs2 := s8.2.1
      let ins := s8.2.2
      .ok cpu false (outs1 ++ outs2) ins
    | 6 =>
      -- LD from immediate
      let dst := decodeR (opy opcode)
      let fb1 := fetchByte cpu
      let cpu := fb1.1
      let o1 := fb1.2
      let d := (ins.headD default).data
      let ins := ins.tail
      let s8 := store8 cpu d dst ins
      let cpu := s8.1
      let outs2 := s8.2.1
      let ins := s8.2.2
      .ok cpu false ([o1] ++ outs2) ins
    | _ =>
      match opy opcode with
      | 0 => .ok (mainRotA cpu .RLC) false [] ins
      | 1 => .ok (mainRotA cpu .RRC) false [] ins
      | 2 => .ok (mainRotA cpu .RL) false [] ins
      | 3 => .ok (mainRotA cpu .RR) false [] ins
      | 4 => .ok { cpu with registers := daa cpu.registers } false [] ins
      | 5 =>
        -- CPL
        let cpu := { cpu with registers :=
          { cpu.registers with a := cpu.registers.a ^^^ 0xFF } }
        let f := cpu.registers.f
        let f := fset f FRegister.NEGATIVE
        let f := fset f FRegister.HALFCARRY
        .ok { cpu with registers := { cpu.registers with f := f } } false [] ins
      | 6 =>
        -- SCF
        let f := cpu.registers.f
        let f := funset f FRegister.NEGATIVE
        let f := funset f FRegister.HALFCARRY
        let f := fset f FRegister.CARRY
        .ok { cpu with registers := { cpu.registers with f := f } } false [] ins
      | _ =>
        -- CCF
        let f := cpu.registers.f
        let f := funset f FRegister.NEGATIVE
        let f := funset f FRegister.HALFCARRY
        let f := fsetValue f FRegister.CARRY (!(fcontains f FRegister.CARRY))
        .ok { cpu with registers := { cpu.registers with f := f } } false [] ins
  | 1 =>
    if opz opcode == 6 && opy opcode == 6 then
      -- HALT
      .ok cpu true [] ins
    else
      -- 8-bit register-to-register LD
      let dst := decodeR (opy opcode)
      let src := decodeR (opz opcode)
      let r8 := read8 cpu src ins
      let v := r8.1
      let outs1 := r8.2.1
      let ins := r8.2.2
      let s8 := store8 cpu v dst ins
      let cpu := s8.1
      let outs2 := s8.2.1
      let ins := s8.2.2
      .ok cpu false (outs1 ++ outs2) ins
  | 2 =>
    let op := decodeAlu (opy opcode)
    let reg := decodeR (opz opcode)
    let r8 := read8 cpu reg ins
    let v := r8.1
    let outs1 := r8.2.1
    let ins := r8.2.2
    let cpu := { cpu with registers := doMath cpu.registers v op }
    .ok cpu false outs1 ins
  | _ =>
    match opz opcode with
    | 0 =>
      match opy opcode with
      | 4 =>
        -- LDH (n), A
        let fb1 := fetchByte cpu
        let cpu := fb1.1
        let o1 := fb1.2
        let n := (ins.headD default).data
        let ins := ins.tail
        let o2 := CpuOutputPins.Write (0xFF00 + n) cpu.registers.a
        let ins := ins.tail
        .ok cpu false [o1, o2] ins
      | 5 =>
        -- ADD SP, n
        let fb1 := fetchByte cpu
        let cpu := fb1.1
        let o1 := fb1.2
        let d := (ins.headD default).data
        let ins := ins.tail
        let n := ((i8val d) % 65536).toNat
        let sp := cpu.registers.sp
        let v := u16 (sp + n)
        let carry := decide (0x100 ≤ (sp &&& 0xFF) + (n &&& 0xFF))
        let halfcarry := decide (0x10 ≤ (sp &&& 0x0F) + (n &&& 0x0F))
        let o2 := CpuOutputPins.Read 0
        let ins := ins.tail
        let f := FRegister.EMPTY
        let f := fsetValue f FRegister.CARRY carry
        let f := fsetValue f FRegister.HALFCARRY halfcarry
        let cpu := { cpu with registers := { cpu.registers with sp := v, f := f } }
        let o3 := CpuOutputPins.Read 0
        let ins := ins.tail
        .ok cpu false [o1, o2, o3] ins
      | 6 =>
        -- LDH A, (n)
        let fb1 := fetchByte cpu
        let cpu := fb1.1
        let o1 := fb1.2
        let n := (ins.headD default).data
        let ins := ins.tail
        let o2 := CpuOutputPins.Read (0xFF00 + n)
        let v := (ins.headD default).data
        let ins := ins.tail
        let cpu := { cpu with registers := { cpu.registers with a := v } }
        .ok cpu false [o1, o2] ins
      | 7 =>
        -- LD HL, SP+d
        let fb1 := fetchByte cpu
        let cpu := fb1.1
        let o1 := fb1.2
        let d := (ins.headD default).data
        let ins := ins.tail
        let n := ((i8val d) % 65536).toNat
        let sp := cpu.registers.sp
        let v := u16 (sp + n)
        let carry := decide (0x100 ≤ (sp &&& 0xFF) + (n &&& 0xFF))
        let halfcarry := decide (0x10 ≤ (sp &&& 0x0F) + (n &&& 0x0F))
        let o2 := CpuOutputPins.Read 0
        let ins := ins.tail
        let f := FRegister.EMPTY
        let f := fsetValue f FRegister.CARRY carry
        let f := fsetValue f FRegister.HALFCARRY halfcarry
        let cpu := { cpu with registers := cpu.registers.set_hl v }
        let cpu := { cpu with registers := { cpu.registers with f := f } }
        .ok cpu false [o1, o2] ins
      | y =>
        -- RET cc
        let o1 := CpuOutputPins.Read 0
        let ins := ins.tail
        if testCondition cpu (decodeCc y) then
          let o2 := CpuOutputPins.Read cpu.registers.sp
          let pc_lo := (ins.headD default).data
          let ins := ins.tail
          let cpu := { cpu with registers :=
            { cpu.registers with sp := u16 (cpu.registers.sp + 1) } }
          let o3 := CpuOutputPins.Read cpu.registers.sp
          let pc_hi := (ins.headD default).data
          let ins := ins.tail
          let cpu := { cpu with registers :=
            { cpu.registers with sp := u16 (cpu.registers.sp + 1) } }
          let o4 := CpuOutputPins.Read 0
          let ins := ins.tail
          let cpu := { cpu with registers :=
            { cpu.registers with pc := (pc_hi <<< 8) ||| pc_lo } }
          .ok cpu false [o1, o2, o3, o4] ins
        else
          .ok cpu false [o1] ins
    | 1 =>
      if opq opcode == 0 then
        -- POP
        let dst := decodeRp2 (opp opcode)
        let o1 := CpuOutputPins.Read cpu.registers.sp
        let low := (ins.headD default).data
        let ins := ins.tail
        let cpu := { cpu with registers :=
          { cpu.registers with sp := u16 (cpu.registers.sp + 1) } }
        let o2 := CpuOutputPins.Read cpu.registers.sp
        let high := (ins.headD default).data
        let ins := ins.tail
        let cpu := { cpu with registers :=
          { cpu.registers with sp := u16 (cpu.registers.sp + 1) } }
        let cpu := store16 cpu ((high <<< 8) ||| low) dst
        .ok cpu false [o1, o2] ins
      else
        match opp opcode with
        | 0 =>
          -- RET
          let o1 := CpuOutputPins.Read cpu.registers.sp
          let pc_lo := (ins.headD default).data
          let ins := ins.tail
          let cpu := { cpu with registers :=
            { cpu.registers with sp := u16 (cpu.registers.sp + 1) } }
          let o2 := CpuOutputPins.Read cpu.registers.sp
          let pc_hi := (ins.headD default).data
          let ins := ins.tail
          let cpu := { cpu with registers :=
            { cpu.registers with sp := u16 (cpu.registers.sp + 1) } }
          let o3 := CpuOutputPins.Read 0
          let ins := ins.tail
          let cpu := { cpu with registers :=
            { cpu.registers with pc := (pc_hi <<< 8) ||| pc_lo } }
          .ok cpu false [o1, o2, o3] ins
        | 1 =>
          -- RETI
          let o1 := CpuOutputPins.Read cpu.registers.sp
          let pc_lo := (ins.headD default).data
          let ins := ins.tail
          let cpu := { cpu with registers :=
            { cpu.registers with sp := u16 (cpu.registers.sp + 1) } }
          let o2 := CpuOutputPins.Read cpu.registers.sp
          let pc_hi := (ins.headD default).data
          let ins := ins.tail
          let cpu := { cpu with registers :=
            { cpu.registers with sp := u16 (cpu.registers.sp + 1) } }
          let o3 := CpuOutputPins.Read 0
          let ins := ins.tail
          let cpu := { cpu with registers :=
            { cpu.registers with pc := (pc_hi <<< 8) ||| pc_lo }, ime := true }
          .ok cpu false [o1, o2, o3] ins
        | 2 =>
          -- JP HL
          let cpu := { cpu with registers :=
            { cpu.registers with pc := cpu.registers.get_hl } }
          .ok cpu false [] ins
        | _ =>
          -- LD SP, HL
          let cpu := { cpu with registers :=
            { cpu.registers with sp := cpu.registers.get_hl } }
          let o1 := CpuOutputPins.Read 0
          let ins := ins.tail
          .ok cpu false [o1] ins
    | 2 =>
      match opy opcode with
      | 4 =>
        -- LD (C), A
        let o1 := CpuOutputPins.Write (0xFF00 + cpu.registers.c) cpu.registers.a
        let ins := ins.tail
        .ok cpu false [o1] ins
      | 5 =>
        -- LD (nn), A
        let fb1 := fetchByte cpu
        let cpu := fb1.1
        let o1 := fb1.2
        let low := (ins.headD default).data
        let ins := ins.tail
        let fb2 := fetchByte cpu
        let cpu := fb2.1
        let o2 := fb2.2
        let high := (ins.headD default).data
        let ins := ins.tail
        let o3 := CpuOutputPins.Write ((high <<< 8) ||| low) cpu.registers.a
        let ins := ins.tail
        .ok cpu false [o1, o2, o3] ins
      | 6 =>
        -- LD A, (C)
        let o1 := CpuOutputPins.Read (0xFF00 + cpu.registers.c)
        let v := (ins.headD default).data
        let ins := ins.tail
        let cpu := { cpu with registers := { cpu.registers with a := v } }
        .ok cpu false [o1] ins
      | 7 =>
        -- LD A, (nn)
        let fb1 := fetchByte cpu
        let cpu := fb1.1
        let o1 := fb1.2
        let low := (ins.headD default).data
        let ins := ins.tail
        let fb2 := fetchByte cpu
        let cpu := fb2.1
        let o2 := fb2.2
        let high := (ins.headD default).data
        let ins := ins.tail
        let o3 := CpuOutputPins.Read ((high <<< 8) ||| low)
        let v := (ins.headD default).data
        let ins := ins.tail
        let cpu := { cpu with registers := { cpu.registers with a := v } }
        .ok cpu false [o1, o2, o3] ins
      | y =>
        -- JP cc, nn
        let condition := decodeCc y
        let fb1 := fetchByte cpu
        let cpu := fb1.1
        let o1 := fb1.2
        let low := (ins.headD default).data
        let ins := ins.tail
        let fb2 := fetchByte cpu
        let cpu := fb2.1
        let o2 := fb2.2
        let high := (ins.headD default).data
        let ins := ins.tail
        if testCondition cpu condition then
          let cpu := { cpu with registers :=
            { cpu.registers with pc := (high <<< 8) ||| low } }
          let o3 := CpuOutputPins.Read 0
          let ins := ins.tail
          .ok cpu false [o1, o2, o3] ins
        else
          .ok cpu false [o1, o2] ins
    | 3 =>
      match opy opcode with
      | 0 =>
        -- JP nn
        let fb1 := fetchByte cpu
        let cpu := fb1.1
        let o1 := fb1.2
        let low := (ins.headD default).data
        let ins := ins.tail
        let fb2 := fetchByte cpu
        let cpu := fb2.1
        let o2 := fb2.2
        let high := (ins.headD default).data
        let ins := ins.tail
        let cpu := { cpu with registers :=
          { cpu.registers with pc := (high <<< 8) ||| low } }
        .ok cpu false [o1, o2] ins
      | 1 =>
        -- CB prefixed instructions
        let fb1 := fetchByte cpu
        let cpu := fb1.1
        let o1 := fb1.2
        let cb := (ins.headD default).data
        let ins := ins.tail
        let dest := decodeR (opz cb)
        let r8 := read8 cpu dest ins
        let v := r8.1
        let outs1 := r8.2.1
        let ins := r8.2.2
        match opx cb with
        | 0 =>
          let rs := doRotateShift cpu.registers v (decodeRot (opy cb))
          let regs := rs.1
          let nv := rs.2
          let cpu := { cpu with registers := regs }
          let s8 := store8 cpu nv dest ins
          let cpu := s8.1
          let outs2 := s8.2.1
          let ins := s8.2.2
          .ok cpu false ([o1] ++ outs1 ++ outs2) ins
        | 1 =>
          -- BIT
          let n := opy cb
          let z := v &&& (1 <<< n) == 0
          let f := cpu.registers.f
          let f := fsetValue f FRegister.ZERO z
          let f := funset f FRegister.NEGATIVE
          let f := fset f FRegister.HALFCARRY
          let cpu := { cpu with registers := { cpu.registers with f := f } }
          .ok cpu false ([o1] ++ outs1) ins
        | 2 =>
          -- RES
          let n := opy cb
          let nv := v &&& ((1 <<< n) ^^^ 0xFF)
          let s8 := store8 cpu nv dest ins
          let cpu := s8.1
          let outs2 := s8.2.1
          let ins := s8.2.2
          .ok cpu false ([o1] ++ outs1 ++ outs2) ins
        | _ =>
          -- SET
          let n := opy cb
          let nv := v ||| (1 <<< n)
          let s8 := store8 cpu nv dest ins
          let cpu := s8.1
          let outs2 := s8.2.1
          let ins := s8.2.2
          .ok cpu false ([o1] ++ outs1 ++ outs2) ins
      | 6 =>
        -- DI
        .ok { cpu with ime := false } false [] ins
      | 7 =>
        -- EI
        .ok { cpu with ime := true } false [] ins
      | _ =>
        -- Unidentified opcode: panic!
        .panicked []
    | 4 =>
      match opy opcode with
      | 0 | 1 | 2 | 3 =>
        -- CALL cc, nn
        let fb1 := fetchByte cpu
        let cpu := fb1.1
        let o1 := fb1.2
        let low := (ins.headD default).data
        let ins := ins.tail
        let fb2 := fetchByte cpu
        let cpu := fb2.1
        let o2 := fb2.2
        let high := (ins.headD default).data
        let ins := ins.tail
        let addr := (high <<< 8) ||| low
        if testCondition cpu (decodeCc (opy opcode)) then
          let pc := cpu.registers.pc
          let pc_lo := pc &&& 0xFF
          let pc_hi := pc >>> 8
          let cpu := { cpu with registers :=
            { cpu.registers with sp := wsub16 cpu.registers.sp 1 } }
          let o3 := CpuOutputPins.Write cpu.registers.sp pc_hi
          let ins := ins.tail
          let cpu := { cpu with registers :=
            { cpu.registers with sp := wsub16 cpu.registers.sp 1 } }
          let o4 := CpuOutputPins.Write cpu.registers.sp pc_lo
          let ins := ins.tail
          let cpu := { cpu with registers := { cpu.registers with pc := addr } }
          let o5 := CpuOutputPins.Read 0
          let ins := ins.tail
          .ok cpu false [o1, o2, o3, o4, o5] ins
        else
          .ok cpu false [o1, o2] ins
      | _ =>
        -- 0xE4 / 0xEC / 0xF4 / 0xFC: panic!
        .panicked []
    | 5 =>
      if opq opcode == 0 then
        -- PUSH
        let v := read16 cpu (decodeRp2 (opp opcode))
        let cpu := { cpu with registers :=
          { cpu.registers with sp := wsub16 cpu.registers.sp 1 } }
        let o1 := CpuOutputPins.Write cpu.registers.sp (v >>> 8)
        let ins := ins.tail
        let cpu := { cpu with registers :=
          { cpu.registers with sp := wsub16 cpu.registers.sp 1 } }
        let o2 := CpuOutputPins.Write cpu.registers.sp (v &&& 0x00FF)
        let ins := ins.tail
        .ok cpu false [o1, o2] ins
      else
        match opp opcode with
        | 0 =>
          -- CALL nn
          let fb1 := fetchByte cpu
          let cpu := fb1.1
          let o1 := fb1.2
          let low := (ins.headD default).data
          let ins := ins.tail
          let fb2 := fetchByte cpu
          let cpu := fb2.1
          let o2 := fb2.2
          let high := (ins.headD default).data
          let ins := ins.tail
          let addr := (high <<< 8) ||| low
          let pc := cpu.registers.pc
          let pc_lo := pc &&& 0xFF
          let pc_hi := pc >>> 8
          let cpu := { cpu with registers :=
            { cpu.registers with sp := wsub16 cpu.registers.sp 1 } }
          let o3 := CpuOutputPins.Write cpu.registers.sp pc_hi
          let ins := ins.tail
          let cpu := { cpu with registers :=
            { cpu.registers with sp := wsub16 cpu.registers.sp 1 } }
          let o4 := CpuOutputPins.Write cpu.registers.sp pc_lo
          let ins := ins.tail
          let cpu := { cpu with registers := { cpu.registers with pc := addr } }
          let o5 := CpuOutputPins.Read 0
          let ins := ins.tail
          .ok cpu false [o1, o2, o3, o4, o5] ins
        | _ =>
          -- 0xDD / 0xED / 0xFD: panic!
          .panicked []
    | 6 =>
      -- ALU on immediate
      let operation := decodeAlu (opy opcode)
      let fb1 := fetchByte cpu
      let cpu := fb1.1
      let o1 := fb1.2
      let n := (ins.headD default).data
      let ins := ins.tail
      let cpu := { cpu with registers := doMath cpu.registers n operation }
      .ok cpu false [o1] ins
    | _ =>
      -- RST
      let vector := opy opcode * 8
      let pc := cpu.registers.pc
      let pc_lo := pc &&& 0xFF
      let pc_hi := pc >>> 8
      let cpu := { cpu with registers :=
        { cpu.registers with sp := wsub16 cpu.registers.sp 1 } }
      let o1 := CpuOutputPins.Write cpu.registers.sp pc_hi
      let ins := ins.tail
      let cpu := { cpu with registers :=
        { cpu.registers with sp := wsub16 cpu.registers.sp 1 } }
      let o2 := CpuOutputPins.Write cpu.registers.sp pc_lo
      let ins := ins.tail
      let cpu := { cpu with registers := { cpu.registers with pc := vector } }
      let o3 := CpuOutputPins.Read 0
      let ins := ins.tail
      .ok cpu false [o1, o2, o3] ins

/-- The tail of the `cpu_runner_gen` loop after interrupt handling: the
halted wait (one NOP yield per loop pass), or the fetch of one opcode byte
followed by its decode and execution.  `outsInt` carries the bus requests
already yielded by interrupt dispatch on this pass. -/
def loopFetch (cpu : Cpu) (halted : Bool) (outsInt : List CpuOutputPins)
    (ins : List CpuInputPins) : StepResult :=
  if halted then
    .ok cpu halted (outsInt ++ [CpuOutputPins.Read 0]) ins.tail
  else
    let fb := fetchByte cpu
    let opcode := (ins.headD default).data
    prependOuts (outsInt ++ [fb.2]) (execInstr fb.1 opcode ins.tail)

/-- One iteration of the `cpu_runner_gen` outer loop: interrupt handling
(any asserted line clears `halted`; with IME set the 5-cycle dispatch runs),
then the halted wait / fetch / execute tail.  `pins` is the input received
at the loop top; every yielded bus request consumes the next element of
`ins` as its response. -/
def loopIter (cpu : Cpu) (halted : Bool) (pins : CpuInputPins)
    (ins : List CpuInputPins) : StepResult :=
  match interruptVector pins with
  | some vector =>
    if cpu.ime then
      let svc := serviceInterrupt cpu vector ins
      loopFetch svc.1 false svc.2.1 svc.2.2
    else
      loopFetch cpu false [] ins
  | none => loopFetch cpu halted [] ins

/-!
## PPU registers (gb_core/src/gameboy/ppu/registers.rs)

`STAT`, `LCDC` and `OamEntryFlags` are `bitflags` types over `u8`; we
represent their payloads as `Nat`.  `bitflags` semantics: `from_bits_truncate`
masks to the union of the defined flags, `contains` tests that ALL bits of the
argument are present, `set`/`insert`/`remove` are or / and-complement, and
`Not` complements within the union of the defined flags.
-/

/-- Union of all defined `STAT` flag bits (0x40|0x20|0x10|0x08|0x04|0x03). -/
def STAT.ALL : Nat := 0x7F
/-- `STAT::LYC_INTERRUPT_ENABLE`. -/
def STAT.LYC_INTERRUPT_ENABLE : Nat := 0x40
/-- `STAT::OAM_INTERRUPT_ENABLE`. -/
def STAT.OAM_INTERRUPT_ENABLE : Nat := 0x20
/-- `STAT::VBLANK_INTERRUPT_ENABLE`. -/
def STAT.VBLANK_INTERRUPT_ENABLE : Nat := 0x10
/-- `STAT::HBLANK_INTERRUPT_ENABLE`. -/
def STAT.HBLANK_INTERRUPT_ENABLE : Nat := 0x08
/-- `STAT::LYC_EQUALS_LY`. -/
def STAT.LYC_EQUALS_LY : Nat := 0x04
/-- `STAT::MODE_0`. -/
def STAT.MODE_0 : Nat := 0
/-- `STAT::MODE_1`. -/
def STAT.MODE_1 : Nat := 1
/-- `STAT::MODE_2`. -/
def STAT.MODE_2 : Nat := 2
/-- `STAT::MODE_3`. -/
def STAT.MODE_3 : Nat := 3

/-- `STAT::from_bits_truncate`. -/
def statFromBits (v : Nat) : Nat := v &&& STAT.ALL

/-- bitflags `contains`: all bits of `other` are present in `s`. -/
def statContainsAll (s other : Nat) : Bool := (s &&& other) == other

/-- bitflags `Not` for `STAT`: 8-bit complement masked to the defined flags. -/
def statNot (f : Nat) : Nat := (f ^^^ 0xFF) &&& STAT.ALL

/-- bitflags `set(flag, value)`: insert or remove
(`remove` is `bits &= !other.bits` over `u8`). -/
def statSet (s flag : Nat) (value : Bool) : Nat :=
  if value then s ||| flag else s &&& (flag ^^^ 0xFF)

/-- `STAT::MODE_BITMASK = STAT::from_bits_truncate(0xFC)`. -/
def STAT.MODE_BITMASK : Nat := statFromBits 0xFC

/-- `STAT::set_mode`: `*self &= MODE_BITMASK; *self |= mode`. -/
def statSetMode (s mode : Nat) : Nat := (s &&& STAT.MODE_BITMASK) ||| mode

/-- `STAT::mode`: `*self & !MODE_BITMASK`. -/
def statMode (s : Nat) : Nat := s &&& statNot STAT.MODE_BITMASK

/-- `LCDC::LCD_ENABLE`. -/
def LCDC.LCD_ENABLE : Nat := 0x80
/-- `LCDC::WINDOW_TILEMAP_AREA`. -/
def LCDC.WINDOW_TILEMAP_AREA : Nat := 0x40
/-- `LCDC::WINDOW_ENABLE`. -/
def LCDC.WINDOW_ENABLE : Nat := 0x20
/-- `LCDC::BG_TILE_DATA_AREA`. -/
def LCDC.BG_TILE_DATA_AREA : Nat := 0x10
/-- `LCDC::BG_TILEMAP_AREA`. -/
def LCDC.BG_TILEMAP_AREA : Nat := 0x08
/-- `LCDC::OBJ_SIZE`. -/
def LCDC.OBJ_SIZE : Nat := 0x04
/-- `LCDC::OBJ_ENABLE`. -/
def LCDC.OBJ_ENABLE : Nat := 0x02
/-- `LCDC::BG_ENABLE`. -/
def LCDC.BG_ENABLE : Nat := 0x01

/-- `LCDC::from_bits_truncate` (all 8 bits are defined flags). -/
def lcdcFromBits (v : Nat) : Nat := v &&& 0xFF

/-- bitflags `contains` for `LCDC`. -/
def lcdcContains (s other : Nat) : Bool := (s &&& other) == other

/-- `Default for LCDC`: `LCD_ENABLE | BG_TILE_DATA_AREA | BG_ENABLE`. -/
def LCDC.default : Nat := LCDC.LCD_ENABLE ||| LCDC.BG_TILE_DATA_AREA ||| LCDC.BG_ENABLE

/-- `OamEntry`: one OAM descriptor.  `flags` holds the raw
`OamEntryFlags` bits (defined bits 0xF0). -/
structure OamEntry where
  ypos : Nat
  xpos : Nat
  tile : Nat
  flags : Nat
  deriving Repr, DecidableEq

/-- `OamEntryFlags::BG_PRIORITY`. -/
def OamFlags.BG_PRIORITY : Nat := 0x80
/-- `OamEntryFlags::Y_FLIP`. -/
def OamFlags.Y_FLIP : Nat := 0x40
/-- `OamEntryFlags::X_FLIP`. -/
def OamFlags.X_FLIP : Nat := 0x20
/-- `OamEntryFlags::PALETTE_OBP1`. -/
def OamFlags.PALETTE_OBP1 : Nat := 0x10

/-- bitflags `contains` for `OamEntryFlags`. -/
def oamFlagsContains (s other : Nat) : Bool := (s &&& other) == other

/-!
## PPU state (gb_core/src/gameboy/ppu/execute/mod.rs, `PpuState`)
-/

/-- Update one cell of a byte-array-as-function (Rust `arr[i] = v`). -/
def memSet (m : Nat → Nat) (i v : Nat) : Nat → Nat :=
  fun j => if j = i then v else m j

/-- The OAM DMA engine state: `Inactive`, `ActiveFirstRead{addr}` or `Active{addr}`. -/
inductive DmaState where
  | Inactive
  | ActiveFirstRead (addr : Nat)
  | Active (addr : Nat)
  deriving Repr, DecidableEq

/-- `PpuState`.  Byte memories are lists of `Nat` (kept below 256); the two
framebuffers are functions from (x, y) to the stored color index (the spec
describes the framebuffers as 160 x 144 of color indices selected by the
2-bit palette output). -/
structure PpuState where
  tile_data : Nat → Nat
  bg_map_1 : Nat → Nat
  bg_map_2 : Nat → Nat
  oam : Nat → Nat
  lcdc : Nat
  stat : Nat
  scy : Nat
  scx : Nat
  ly : Nat
  lyc : Nat
  wy : Nat
  wx : Nat
  bgp : Nat
  obp0 : Nat
  obp1 : Nat
  vblank_irq : Bool
  stat_irq : Bool
  frame : Nat → Nat → Nat
  back_frame : Nat → Nat → Nat
  dma_transfer : DmaState

/-- `PpuState::new`: zeroed memories and registers, `LCDC` at its default,
DMA inactive. -/
def PpuState.new : PpuState where
  tile_data := fun _ => 0
  bg_map_1 := fun _ => 0
  bg_map_2 := fun _ => 0
  oam := fun _ => 0
  lcdc := LCDC.default
  stat := 0
  scy := 0
  scx := 0
  ly := 0
  lyc := 0
  wy := 0
  wx := 0
  bgp := 0
  obp0 := 0
  obp1 := 0
  vblank_irq := false
  stat_irq := false
  frame := fun _ _ => 0
  back_frame := fun _ _ => 0
  dma_transfer := DmaState.Inactive

/-- `PpuState::oam`: the nth OAM entry
(`OamEntryFlags::from_bits_truncate` masks the flags byte to 0xF0). -/
def PpuState.oamEntry (st : PpuState) (index : Nat) : OamEntry where
  ypos := st.oam (index * 4)
  xpos := st.oam (index * 4 + 1)
  tile := st.oam (index * 4 + 2)
  flags := st.oam (index * 4 + 3) &&& 0xF0

/-- `PpuState::sprite_height`: 16 if `LCDC::OBJ_SIZE` else 8. -/
def PpuState.spriteHeight (st : PpuState) : Nat :=
  if lcdcContains st.lcdc LCDC.OBJ_SIZE then 16 else 8

/-- `PpuState::get_bg_tile_number`. -/
def PpuState.getBgTileNumber (st : PpuState) (offset : Nat) : Nat :=
  if lcdcContains st.lcdc LCDC.BG_TILEMAP_AREA then st.bg_map_2 offset
  else st.bg_map_1 offset

/-- `PpuState::get_window_tile_number`. -/
def PpuState.getWindowTileNumber (st : PpuState) (offset : Nat) : Nat :=
  if lcdcContains st.lcdc LCDC.WINDOW_TILEMAP_AREA then st.bg_map_2 offset
  else st.bg_map_1 offset

/-- `PpuState::bg_tile_data_address`: unsigned from 0x0000, or signed offset
from 0x1000, per `LCDC::BG_TILE_DATA_AREA`. -/
def PpuState.bgTileDataAddress (st : PpuState) (tile_no : Nat) : Nat :=
  if lcdcContains st.lcdc LCDC.BG_TILE_DATA_AREA then tile_no * 16
  else ((0x1000 : Int) + i8val tile_no * 16).toNat

/-- `PpuState::sprite_tile_data_address`: always unsigned from 0x0000. -/
def PpuState.spriteTileDataAddress (_st : PpuState) (tile_no : Nat) : Nat :=
  tile_no * 16

/-- Modelled from the spec: `color::calculate_monochrome_color_id` is not
under `src/`; the spec gives the color index as `(palette >> (2*c)) & 0x3`. -/
def monochromeColorId (palette c : Nat) : Nat := (palette >>> (2 * c)) &&& 0x3

/-- A pixel travelling through the FIFOs (`pixel_fifo::Pixel`): a 2-bit
color, the sprite palette selector, and the sprite's BG-priority bit. -/
structure Pixel where
  color : Nat
  palette : Nat
  bg_priority : Bool
  deriving Repr, DecidableEq

/-- `PpuState::put_pixel`: mix one BG pixel and one sprite pixel and store the
resulting color index into the back framebuffer. -/
def PpuState.putPixel (st : PpuState) (bg_pix sprite_pix : Pixel) (x y : Nat) : PpuState :=
  let color_id :=
    if sprite_pix.color == 0 || (sprite_pix.bg_priority && bg_pix.color != 0) then
      monochromeColorId st.bgp bg_pix.color
    else
      let palette := if sprite_pix.palette == 0 then st.obp0 else st.obp1
      monochromeColorId palette sprite_pix.color
  { st with back_frame := fun i j =>
      if i = x ∧ j = y then color_id else st.back_frame i j }

/-- `PpuState::swap_frames`. -/
def PpuState.swapFrames (st : PpuState) : PpuState :=
  { st with frame := st.back_frame, back_frame := st.frame }

/-- `PpuState::set_ly`: store LY, refresh `STAT::LYC_EQUALS_LY` from
`ly == lyc`, and recompute the STAT interrupt line. -/
def updateStatInterrupt (st : PpuState) : PpuState :=
  let mode := statMode st.stat
  let mode_int :=
    if mode == STAT.MODE_0 && statContainsAll st.stat STAT.HBLANK_INTERRUPT_ENABLE then
      true
    else if mode == STAT.MODE_1 && statContainsAll st.stat STAT.VBLANK_INTERRUPT_ENABLE then
      true
    else if mode == STAT.MODE_2 && statContainsAll st.stat STAT.OAM_INTERRUPT_ENABLE then
      true
    else false
  let lyc_int :=
    statContainsAll st.stat (STAT.LYC_INTERRUPT_ENABLE ||| STAT.LYC_EQUALS_LY)
  { st with stat_irq := mode_int || lyc_int }

/-- `PpuState::set_ly`. -/
def setLy (st : PpuState) (ly : Nat) : PpuState :=
  let st := { st with ly := ly }
  let st := { st with stat := statSet st.stat STAT.LYC_EQUALS_LY (st.ly == st.lyc) }
  updateStatInterrupt st

/-- `PpuState::set_mode`. -/
def setMode (st : PpuState) (mode : Nat) : PpuState :=
  let st := { st with stat := statSetMode st.stat (statFromBits mode) }
  updateStatInterrupt st

/-- `PpuState::perform_io`: service one CPU bus request, then refresh bits 0
and 1 of the IF register from the `vblank_irq` / `stat_irq` latches.  Returns
the state, the data-out slot, and the IF slot. -/
def perform_io (st : PpuState) (input : CpuOutputPins) (data irq : Nat) :
    PpuState × Nat × Nat :=
  let (st, data) :=
    match input with
    | .Write addr v =>
      let st :=
        if 0x8000 ≤ addr ∧ addr ≤ 0x97FF then
          { st with tile_data := memSet st.tile_data (addr - 0x8000) v }
        else if 0x9800 ≤ addr ∧ addr ≤ 0x9BFF then
          { st with bg_map_1 := memSet st.bg_map_1 (addr - 0x9800) v }
        else if 0x9C00 ≤ addr ∧ addr ≤ 0x9FFF then
          { st with bg_map_2 := memSet st.bg_map_2 (addr - 0x9C00) v }
        else if 0xFE00 ≤ addr ∧ addr ≤ 0xFE9F then
          { st with oam := memSet st.oam (addr - 0xFE00) v }
        else if addr = 0xFF40 then { st with lcdc := lcdcFromBits v }
        else if addr = 0xFF41 then
          updateStatInterrupt { st with stat := statFromBits v }
        else if addr = 0xFF42 then { st with scy := v }
        else if addr = 0xFF43 then { st with scx := v }
        else if addr = 0xFF44 then { st with ly := v }
        else if addr = 0xFF45 then { st with lyc := v }
        else if addr = 0xFF46 then
          { st with dma_transfer := DmaState.ActiveFirstRead (v * 0x100) }
        else if addr = 0xFF47 then { st with bgp := v }
        else if addr = 0xFF48 then { st with obp0 := v }
        else if addr = 0xFF49 then { st with obp1 := v }
        else if addr = 0xFF4A then { st with wy := v }
        else if addr = 0xFF4B then { st with wx := v }
        else st
      (st, data)
    | .Read addr =>
      let data :=
        if 0x8000 ≤ addr ∧ addr ≤ 0x97FF then st.tile_data (addr - 0x8000)
        else if 0x9800 ≤ addr ∧ addr ≤ 0x9BFF then st.bg_map_1 (addr - 0x9800)
        else if 0x9C00 ≤ addr ∧ addr ≤ 0x9FFF then st.bg_map_2 (addr - 0x9C00)
        else if 0xFE00 ≤ addr ∧ addr ≤ 0xFE9F then st.oam (addr - 0xFE00)
        else if addr = 0xFF40 then st.lcdc
        else if addr = 0xFF41 then st.stat
        else if addr = 0xFF42 then st.scy
        else if addr = 0xFF43 then st.scx
        else if addr = 0xFF44 then st.ly
        else if addr = 0xFF45 then st.lyc
        else if addr = 0xFF46 then
          match st.dma_transfer with
          | .Active a => a / 0x100
          | .ActiveFirstRead a => a / 0x100
          | .Inactive => 0
        else if addr = 0xFF47 then st.bgp
        else if addr = 0xFF48 then st.obp0
        else if addr = 0xFF49 then st.obp1
        else if addr = 0xFF4A then st.wy
        else if addr = 0xFF4B then st.wx
        else data
      (st, data)
  let irq := if st.vblank_irq then irq ||| (1 <<< 0) else irq &&& ((1 <<< 0) ^^^ 0xFF)
  let irq := if st.stat_irq then irq ||| (1 <<< 1) else irq &&& ((1 <<< 1) ^^^ 0xFF)
  (st, data, irq)

/-- `PpuState::clock_dma`: one DMA M-cycle.  Returns `none` where the Rust
panics (`unreachable!` when DMA is inactive). -/
def clock_dma (st : PpuState) (input : CpuInputPins) :
    Option (PpuState × CpuOutputPins) :=
  match st.dma_transfer with
  | .Inactive => none
  | .ActiveFirstRead addr =>
    some ({ st with dma_transfer := DmaState.Active addr }, CpuOutputPins.Read addr)
  | .Active addr =>
    let i := addr % 0x100
    let st := { st with oam := memSet st.oam i input.data }
    if i == 0x9F then
      some ({ st with dma_transfer := DmaState.Inactive }, CpuOutputPins.Read 0)
    else
      some ({ st with dma_transfer := DmaState.Active (addr + 1) },
        CpuOutputPins.Read (addr + 1))

/-!
## Pixel FIFOs

Modelled from the spec: `ppu/execute/pixel_fifo.rs` is not under `src/`; only
its interface is used by `gen()`.  The spec describes the BG fetcher as
advancing one step per 2 dots through the phases fetch-tile-id,
fetch-tile-data-low, fetch-tile-data-high and push (pushing 8 pixels when the
FIFO holds at most 8), with the tile-map offsets and tile-data addressing
given in spec sections 3 and 4.2, and the sprite fetcher as a 6-dot fetch
whose pixels are mixed into the sprite FIFO.
-/

/-- `pixel_fifo::TileCounter`: whether the fetcher walks the BG map or the
window map, with its x counter (and the window's internal line counter). -/
inductive TileCounter where
  | Bg (x_counter : Nat)
  | Window (x_counter : Nat) (window_line : Nat)
  deriving Repr, DecidableEq

/-- Modelled from the spec: the BG/window pixel FIFO and its fetcher. -/
structure BgPixelFifo where
  fifo : List Pixel
  phase : Nat
  counter : TileCounter
  tile_no : Nat
  data_lo : Nat
  data_hi : Nat
  deriving Repr, DecidableEq

/-- `BgPixelFifo::new`. -/
def BgPixelFifo.new : BgPixelFifo where
  fifo := []
  phase := 0
  counter := TileCounter.Bg 0
  tile_no := 0
  data_lo := 0
  data_hi := 0

/-- `BgPixelFifo::set_tile_map_offset`. -/
def BgPixelFifo.setTileMapOffset (f : BgPixelFifo) (c : TileCounter) : BgPixelFifo :=
  { f with counter := c }

/-- `BgPixelFifo::reset_fetcher`: restart the fetch phases, keeping the FIFO. -/
def BgPixelFifo.resetFetcher (f : BgPixelFifo) : BgPixelFifo :=
  { f with phase := 0 }

/-- `BgPixelFifo::clear`: drop the queued pixels (window entry). -/
def BgPixelFifo.clear (f : BgPixelFifo) : BgPixelFifo :=
  { f with fifo := [] }

/-- The 8 pixels of one BG/window tile row, leftmost (bit 7) first. -/
def tileRowPixels (lo hi : Nat) : List Pixel :=
  (List.range 8).map fun i =>
    { color := ((lo >>> (7 - i)) &&& 1) + 2 * ((hi >>> (7 - i)) &&& 1),
      palette := 0, bg_priority := false }

/-- The row within the current tile for the fetcher's counter. -/
def BgPixelFifo.fetchRow (st : PpuState) (f : BgPixelFifo) : Nat :=
  match f.counter with
  | .Bg _ => u8 (st.scy + st.ly) % 8
  | .Window _ wl => wl % 8

/-- Modelled from the spec: one fetcher step per 2 dots.  Phase 0 latches the
tile id (BG at offset `((scy+ly)/8)*32 + (x_counter + scx/8) mod 32`, window
at `(window_line/8)*32 + x_counter`); phases 1 and 2 latch the two tile-data
bytes; the push phase appends 8 pixels when the FIFO holds at most 8 and
advances the x counter. -/
def BgPixelFifo.clock (st : PpuState) (f : BgPixelFifo) : BgPixelFifo :=
  match f.phase with
  | 0 =>
    match f.counter with
    | .Bg x =>
      let offset := (u8 (st.scy + st.ly) / 8) * 32 + ((x + st.scx / 8) % 32)
      { f with tile_no := st.getBgTileNumber offset, phase := 1 }
    | .Window x wl =>
      let offset := (wl / 8) * 32 + x
      { f with tile_no := st.getWindowTileNumber offset, phase := 1 }
  | 1 =>
    let addr := st.bgTileDataAddress f.tile_no + 2 * f.fetchRow st
    { f with data_lo := st.tile_data addr, phase := 2 }
  | 2 =>
    let addr := st.bgTileDataAddress f.tile_no + 2 * f.fetchRow st
    { f with data_hi := st.tile_data (addr + 1), phase := 3 }
  | _ =>
    if f.fifo.length ≤ 8 then
      let counter :=
        match f.counter with
        | .Bg x => TileCounter.Bg (x + 1)
        | .Window x wl => TileCounter.Window (x + 1) wl
      { f with
        fifo := f.fifo ++ tileRowPixels f.data_lo f.data_hi,
        phase := 0,
        counter := counter }
    else f

/-- `BgPixelFifo::pop_pixel`. -/
def BgPixelFifo.popPixel (f : BgPixelFifo) : Option Pixel × BgPixelFifo :=
  match f.fifo with
  | [] => (none, f)
  | p :: rest => (some p, { f with fifo := rest })

/-- A transparent sprite pixel (color 0). -/
def transparentPixel : Pixel := { color := 0, palette := 0, bg_priority := false }

/-- Modelled from the spec: the sprite pixel FIFO with its 6-dot fetcher. -/
structure SpritePixelFifo where
  fifo : List Pixel
  pending : Option (OamEntry × Nat)
  deriving Repr, DecidableEq

/-- `SpritePixelFifo::new`. -/
def SpritePixelFifo.new : SpritePixelFifo where
  fifo := []
  pending := none

/-- `SpritePixelFifo::load_sprite`. -/
def SpritePixelFifo.loadSprite (s : SpritePixelFifo) (e : OamEntry) : SpritePixelFifo :=
  { s with pending := some (e, 0) }

/-- The 8 pixels of the pending sprite's row on the current scanline,
honoring the X/Y flip and palette attribute bits. -/
def spriteRowPixels (st : PpuState) (e : OamEntry) : List Pixel :=
  let h := st.spriteHeight
  let row := st.ly + 16 - e.ypos
  let row := if oamFlagsContains e.flags OamFlags.Y_FLIP then h - 1 - row else row
  let addr := st.spriteTileDataAddress e.tile + 2 * row
  let lo := st.tile_data addr
  let hi := st.tile_data (addr + 1)
  (List.range 8).map fun i =>
    let bit := if oamFlagsContains e.flags OamFlags.X_FLIP then i else 7 - i
    { color := ((lo >>> bit) &&& 1) + 2 * ((hi >>> bit) &&& 1),
      palette := if oamFlagsContains e.flags OamFlags.PALETTE_OBP1 then 1 else 0,
      bg_priority := oamFlagsContains e.flags OamFlags.BG_PRIORITY }

/-- Mix freshly fetched sprite pixels into the sprite FIFO: pixels already
queued win unless transparent. -/
def mixSprite (old new : List Pixel) : List Pixel :=
  (List.range (max old.length new.length)).map fun i =>
    let o := old.getD i transparentPixel
    let n := new.getD i transparentPixel
    if o.color ≠ 0 then o else n

/-- Modelled from the spec: one dot of the sprite fetcher; on the 6th dot the
sprite's pixels are mixed into the FIFO. -/
def SpritePixelFifo.clock (st : PpuState) (s : SpritePixelFifo) : SpritePixelFifo :=
  match s.pending with
  | none => s
  | some (e, n) =>
    if n + 1 = 6 then
      { fifo := mixSprite s.fifo (spriteRowPixels st e), pending := none }
    else
      { s with pending := some (e, n + 1) }

/-- Iterate the sprite fetcher clock. -/
def clockN (st : PpuState) : Nat → SpritePixelFifo → SpritePixelFifo
  | 0, s => s
  | n + 1, s => clockN st n (SpritePixelFifo.clock st s)

/-- `SpritePixelFifo::pop_pixel`: the front pixel, or a transparent pixel
when the FIFO is empty. -/
def SpritePixelFifo.popPixel (s : SpritePixelFifo) : Pixel × SpritePixelFifo :=
  match s.fifo with
  | [] => (transparentPixel, s)
  | p :: rest => (p, { s with fifo := rest })

/-- Pop and discard sprite pixels that are off-screen to the left
(`for _ in 0..discard`, which is empty when `discard ≤ 0`). -/
def popDiscard (s : SpritePixelFifo) (d : Int) : SpritePixelFifo :=
  (fun t => (SpritePixelFifo.popPixel t).2)^[d.toNat] s

/-!
## The PPU step machine (gb_core/src/gameboy/ppu/execute/mod.rs, `gen`)

The coroutine yields once per dot; we transcribe it as functions returning
the state at the end of each phase together with the number of dots yielded.
-/

/-- `u8` overflow-checked addition: Rust integer overflow is a panic
(modelled as `none`). -/
def checkedAddU8 (a b : Nat) : Option Nat :=
  if a + b ≤ 255 then some (a + b) else none

/-- The OAM-scan qualification test of `gen()`:
`entry.xpos > 0 && scanline + 16 >= entry.ypos && scanline + 16 < entry.ypos + sprite_height`,
with Rust's short-circuit `&&` and overflow-checked `u8` additions. -/
def spriteQualifies (scanline ypos xpos height : Nat) : Option Bool :=
  if xpos > 0 then
    match checkedAddU8 scanline 16 with
    | none => none
    | some s16 =>
      if ypos ≤ s16 then
        match checkedAddU8 ypos height with
        | none => none
        | some yh => some (decide (s16 < yh))
      else some false
  else some false

/-- The OAM search loop of `gen()` over entries `0..40`: collect up to 10
qualifying entries in scan order into the sprite buffer. -/
def oamScanGo (st : PpuState) (scanline : Nat) :
    Nat → List OamEntry → Nat → Option (List OamEntry × Nat)
  | 0, buf, len => some (buf, len)
  | n + 1, buf, len =>
    let entry := 40 - (n + 1)
    if len < 10 then
      let e := st.oamEntry entry
      match spriteQualifies scanline e.ypos e.xpos st.spriteHeight with
      | none => none
      | some true => oamScanGo st scanline n (buf.set len e) (len + 1)
      | some false => oamScanGo st scanline n buf len
    else oamScanGo st scanline n buf len

/-- Mode-2 OAM search: the sprite buffer starts as 10 entries with
`xpos = 255`; the scan dots (2 per entry, 80 in all) are counted by the
caller. -/
def oamScan (st : PpuState) (scanline : Nat) : Option (List OamEntry × Nat) :=
  oamScanGo st scanline 40 (List.replicate 10 { ypos := 0, xpos := 255, tile := 0, flags := 0 }) 0

/-- The mode-3 drawing loop of `gen()` (`while x < 160`).  Returns the state,
the final `cycles` counter, the number of dots yielded (one per loop
iteration, plus 6 per dispatched sprite fetch, which do NOT advance
`cycles`), and the number of sprite fetches.  `fuel` bounds the recursion;
`none` means fuel ran out.  When a popped BG pixel finds a pending sprite
with `xpos ≤ x + 8`, the BG fetcher is paused and reset, the sprite fetcher
runs for 6 dots, the sprite is marked consumed (`xpos := 255`), and its
off-screen-left pixels are discarded; the source's shared iteration tail
(sprite-pixel pop, pixel mix, window entry, `x += 1`) is written out in both
arms here. -/
def drawLoop : Nat → PpuState → List OamEntry → BgPixelFifo → SpritePixelFifo →
    Int → Nat → Bool → Bool → Nat → Nat → Nat → Option (PpuState × Nat × Nat × Nat)
  | 0, _, _, _, _, _, _, _, _, _, _, _ => none
  | fuel + 1, st, buf, bgF, sprF, x, cycles, insideWindow, wy_passed, window_lines,
      yields, fetches =>
    if x < 160 then
      let bgF := if cycles % 2 == 0 then BgPixelFifo.clock st bgF else bgF
      let popped := bgF.popPixel
      match popped.1 with
      | some bg_pixel =>
        match buf.findIdx? (fun sprite => decide ((sprite.xpos : Int) ≤ x + 8)) with
        | some i =>
          let sprite := buf.getD i { ypos := 0, xpos := 255, tile := 0, flags := 0 }
          let bgF := popped.2.resetFetcher
          let sprF := sprF.loadSprite sprite
          let xpos := sprite.xpos
          let buf := buf.set i { sprite with xpos := 255 }
          let sprF := clockN st 6 sprF
          let discard := (8 : Int) - (xpos : Int)
          let sprF := popDiscard sprF discard
          let pp := sprF.popPixel
          let st := if 0 ≤ x then st.putPixel bg_pixel pp.1 x.toNat st.ly else st
          let enterWindow :=
            lcdcContains st.lcdc LCDC.WINDOW_ENABLE && wy_passed
              && decide ((st.wx : Int) - 7 ≤ x) && !insideWindow
          let bgF :=
            if enterWindow then
              (bgF.clear).setTileMapOffset (TileCounter.Window 0 window_lines)
            else bgF
          let insideWindow := if enterWindow then true else insideWindow
          drawLoop fuel st buf bgF pp.2 (x + 1) (cycles + 1) insideWindow wy_passed
            window_lines (yields + 6 + 1) (fetches + 1)
        | none =>
          let bgF := popped.2
          let pp := sprF.popPixel
          let st := if 0 ≤ x then st.putPixel bg_pixel pp.1 x.toNat st.ly else st
          let enterWindow :=
            lcdcContains st.lcdc LCDC.WINDOW_ENABLE && wy_passed
              && decide ((st.wx : Int) - 7 ≤ x) && !insideWindow
          let bgF :=
            if enterWindow then
              (bgF.clear).setTileMapOffset (TileCounter.Window 0 window_lines)
            else bgF
          let insideWindow := if enterWindow then true else insideWindow
          drawLoop fuel st buf bgF pp.2 (x + 1) (cycles + 1) insideWindow wy_passed
            window_lines (yields + 1) fetches
      | none =>
        let bgF := popped.2
        drawLoop fuel st buf bgF sprF x (cycles + 1) insideWindow wy_passed
          window_lines (yields + 1) fetches
    else some (st, cycles, yields, fetches)

/-- One visible scanline of `gen()`: `set_ly`, the `wy` latch, OAM search
(80 dots), drawing, then HBlank padding the `cycles` counter to 456.
Returns the state, the updated `wy_passed` / `window_lines`, the total
number of dots yielded for the scanline, and the number of sprite fetches. -/
def scanlineRun (st : PpuState) (scanline : Nat) (wy_passed : Bool)
    (window_lines : Nat) : Option (PpuState × Bool × Nat × Nat × Nat) :=
  let st := setLy st scanline
  let wy_passed := wy_passed || (st.ly == st.wy)
  let st := setMode st 2
  match oamScan st scanline with
  | none => none
  | some (buf, _len) =>
    let st := setMode st 3
    let cycles := 80
    let bgF := BgPixelFifo.new.setTileMapOffset (TileCounter.Bg 0)
    let sprF := SpritePixelFifo.new
    let x : Int := -((st.scx : Int) % 8)
    match drawLoop 4096 st buf bgF sprF x cycles false wy_passed window_lines 0 0 with
    | none => none
    | some (st, cycles, drawYields, fetches) =>
      let window_lines := if wy_passed then window_lines + 1 else window_lines
      let st := setMode st 0
      let hblankYields := 456 - cycles
      some (st, wy_passed, window_lines, 80 + drawYields + hblankYields, fetches)

/-- The 144 visible scanlines, accumulating the total dot count and the list
of per-scanline dot counts. -/
def visibleLoop : Nat → PpuState → Bool → Nat → Nat → List Nat →
    Option (PpuState × Bool × Nat × Nat × List Nat)
  | 0, st, wy, wl, acc, lines => some (st, wy, wl, acc, lines)
  | n + 1, st, wy, wl, acc, lines =>
    let scanline := 144 - (n + 1)
    match scanlineRun st scanline wy wl with
    | none => none
    | some (st, wy, wl, y, _fetches) => visibleLoop n st wy wl (acc + y) (lines ++ [y])

/-- The 10 VBlank scanlines (`for scanline in 144..154`), each 456 dots. -/
def vblankLoop : Nat → PpuState → Nat → List Nat → PpuState × Nat × List Nat
  | 0, st, acc, lines => (st, acc, lines)
  | n + 1, st, acc, lines =>
    let scanline := 154 - (n + 1)
    let st := setLy st scanline
    vblankLoop n st (acc + 456) (lines ++ [456])

/-- One full frame of `gen()`: 144 visible scanlines, then Mode 1 (swap
frames, raise `vblank_irq`, 10 scanlines of 456 dots, clear `vblank_irq`).
Returns the state, the total dot count, and the per-scanline dot counts. -/
def frameRun (st : PpuState) : Option (PpuState × Nat × List Nat) :=
  match visibleLoop 144 st false 0 0 [] with
  | none => none
  | some (st, _wy, _wl, acc, lines) =>
    let st := setMode st 1
    let st := st.swapFrames
    let st := { st with vblank_irq := true }
    let vb := vblankLoop 10 st acc lines
    let st := { vb.1 with vblank_irq := false }
    some (st, vb.2.1, vb.2.2)

/-!
## Harness helpers for the end-to-end scenarios
-/

/-- Outputs of a `StepResult`. -/
def stepOuts : StepResult → List CpuOutputPins
  | .ok _ _ outs _ => outs
  | .panicked outs => outs

/-- Drive the DMA engine: each M-cycle feeds the memory's response to the
previous cycle's read address into `clock_dma`. -/
def dmaRun (mem : Nat → Nat) : Nat → PpuState → Nat → Option (PpuState × Nat)
  | 0, st, lastAddr => some (st, lastAddr)
  | n + 1, st, lastAddr =>
    match clock_dma st
        { data := mem lastAddr,
          interrupt_40h := false,
          interrupt_48h := false,
          interrupt_50h := false,
          interrupt_58h := false,
          interrupt_60h := false } with
    | some (st, CpuOutputPins.Read a) => dmaRun mem n st a
    | some (st, CpuOutputPins.Write _ _) => dmaRun mem n st lastAddr
    | none => none

/-- Scenario S5's source RAM: `0xC000..=0xC09F` filled with the offsets. -/
def dmaSourceMem : Nat → Nat := fun a =>
  if 0xC000 ≤ a ∧ a ≤ 0xC09F then a - 0xC000 else 0

/-- Scenario S5 checker: write `0xC0` to `0xFF46`, run `1 + 160` DMA
M-cycles, then check `OAM[i] = i` for all `i < 160`, that DMA is inactive,
and that reading `0xFF46` returns 0. -/
def dmaScenarioCheck : Bool :=
  let st1 := (perform_io PpuState.new (CpuOutputPins.Write 0xFF46 0xC0) 0 0).1
  match dmaRun dmaSourceMem 161 st1 0 with
  | some (stF, _) =>
    ((List.range 160).all fun i => stF.oam i == i) &&
    (stF.dma_transfer == DmaState.Inactive) &&
    ((perform_io stF (CpuOutputPins.Read 0xFF46) 0 0).2.1 == 0)
  | none => false

/-- S5 / C3-style sprite setup: OAM entry 0 with `ypos = 16`, `xpos = 8`
(which qualifies on scanline 0), all other memory zero. -/
def spriteOamState : PpuState :=
  { PpuState.new with oam := memSet (memSet (fun _ => 0) 0 16) 1 8 }

/-!
## Work/high RAM (src/gameboy/memory.rs, `Memory`)
-/

/-- `Memory`: 4 KiB + 4 KiB work RAM and 127 bytes of high RAM. -/
structure Memory where
  work_ram_1 : Nat → Nat
  work_ram_2 : Nat → Nat
  high_ram : Nat → Nat

/-- `Memory::new`. -/
def Memory.new : Memory where
  work_ram_1 := fun _ => 0
  work_ram_2 := fun _ => 0
  high_ram := fun _ => 0

/-- `Memory::address_is_in_range`. -/
def Memory.addressIsInRange (addr : Nat) : Bool :=
  (0xC000 ≤ addr && addr ≤ 0xDFFF) || (0xFF80 ≤ addr && addr ≤ 0xFFFE)

/-- `impl Index<u16> for Memory` (`none` models the out-of-bounds panic). -/
def Memory.read (m : Memory) (addr : Nat) : Option Nat :=
  if 0xC000 ≤ addr ∧ addr ≤ 0xCFFF then some (m.work_ram_1 (addr - 0xC000))
  else if 0xD000 ≤ addr ∧ addr ≤ 0xDFFF then some (m.work_ram_2 (addr - 0xD000))
  else if 0xFF80 ≤ addr ∧ addr ≤ 0xFFFE then some (m.high_ram (addr - 0xFF80))
  else none

/-- `impl IndexMut<u16> for Memory` (`none` models the out-of-bounds panic). -/
def Memory.write (m : Memory) (addr v : Nat) : Option Memory :=
  if 0xC000 ≤ addr ∧ addr ≤ 0xCFFF then
    some { m with work_ram_1 := memSet m.work_ram_1 (addr - 0xC000) v }
  else if 0xD000 ≤ addr ∧ addr ≤ 0xDFFF then
    some { m with work_ram_2 := memSet m.work_ram_2 (addr - 0xD000) v }
  else if 0xFF80 ≤ addr ∧ addr ≤ 0xFFFE then
    some { m with high_ram := memSet m.high_ram (addr - 0xFF80) v }
  else none

/-- `Chip::clock` for `Memory`: serve a read with the stored byte, apply a
write; the chip is only clocked when `chip_select` matches. -/
def Memory.clock (m : Memory) (input : CpuOutputPins) : Option (Memory × CpuInputPins) :=
  match input with
  | .Read addr => (m.read addr).map fun v => (m, { (default : CpuInputPins) with data := v })
  | .Write addr v => (m.write addr v).map fun m => (m, default)

/-- Route a list of bus requests at the `Memory` chip, skipping addresses
outside its `chip_select` range (they belong to other chips). -/
def memApply : Memory → List CpuOutputPins → Option Memory
  | m, [] => some m
  | m, out :: rest =>
    let addr := match out with | .Read a => a | .Write a _ => a
    if Memory.addressIsInRange addr then
      match m.clock out with
      | some (m, _) => memApply m rest
      | none => none
    else memApply m rest

/-!
## Scenario fixtures
-/

/-- An input with only the opcode byte set. -/
def pinsData (d : Nat) : CpuInputPins :=
  { data := d, interrupt_40h := false, interrupt_48h := false, interrupt_50h := false,
    interrupt_58h := false, interrupt_60h := false }

/-- Scenario S1 initial CPU: `A = 0x3A`, `B = 0xC6`, `F = 0`. -/
def cpuS1 : Cpu where
  registers :=
    { a := 0x3A, f := 0, b := 0xC6, c := 0, d := 0, e := 0, h := 0, l := 0,
      sp := 0xFFFE, pc := 0 }
  ime := false

/-- Scenario S4 initial CPU: `IME = 1`, `PC = 0x1234`, `SP = 0xFFFE`. -/
def cpuS4 : Cpu where
  registers :=
    { a := 0, f := 0, b := 0, c := 0, d := 0, e := 0, h := 0, l := 0,
      sp := 0xFFFE, pc := 0x1234 }
  ime := true

/-- Scenario S4 bus responses: the IF read returns 0x01 (only VBlank
pending); the other dispatch cycles are writes/NOPs. -/
def insS4 : List CpuInputPins :=
  [pinsData 0x01, default, default, default, default]

/-- A PPU state with a running DMA transfer at source address 0xC000. -/
def stDmaW : PpuState := { PpuState.new with dma_transfer := DmaState.Active 0xC000 }

/-!
## Helper lemmas
-/

theorem and_or_right (x a b : Nat) : (x ||| a) &&& b = (x &&& b) ||| (a &&& b) := by
  refine Nat.eq_of_testBit_eq fun i => ?_
  simp only [Nat.testBit_or, Nat.testBit_and]
  cases x.testBit i <;> cases a.testBit i <;> cases b.testBit i <;> rfl

/-- Flag update chain of the ADD/ADC/SUB/SBC-style arms of `do_math`:
N is forced, then Z/H/C are overwritten, so the result is independent of the
previous flags. -/
theorem addFlagChain : ∀ f < 256, ∀ z h c : Bool,
    fsetValue (fsetValue (fsetValue (funset f FRegister.NEGATIVE) FRegister.ZERO z)
        FRegister.HALFCARRY h) FRegister.CARRY c
      = (if z then 0x80 else 0) + (if h then 0x20 else 0) + (if c then 0x10 else 0) := by
  decide

/-- As `addFlagChain` but with N set (SUB/SBC/CP); here the old flags must
already have a clear low nibble, since `set`-type updates preserve set
bits. -/
theorem subFlagChain : ∀ f < 256, f &&& 0xF = 0 → ∀ z h c : Bool,
    fsetValue (fsetValue (fsetValue (fset f FRegister.NEGATIVE) FRegister.ZERO z)
        FRegister.HALFCARRY h) FRegister.CARRY c
      = 0x40 + (if z then 0x80 else 0) + (if h then 0x20 else 0) + (if c then 0x10 else 0) := by
  decide

/-- Flag update chain of `do_rotate_shift`: Z then C overwritten, N and H
cleared. -/
theorem rotFlagChain : ∀ f < 256, ∀ z c : Bool,
    fsetValue (funset (funset (fsetValue f FRegister.ZERO z) FRegister.NEGATIVE)
        FRegister.HALFCARRY) FRegister.CARRY c
      = (if z then 0x80 else 0) + (if c then 0x10 else 0) := by
  decide

/-- The RLCA/RRCA/RLA/RRA mask `f.unset(f & !CARRY)` keeps exactly the CARRY
bit. -/
theorem mainRotMask : ∀ f < 256, funset f (f &&& fnot FRegister.CARRY) = f &&& 0x10 := by
  decide

theorem stepOuts_prependOuts (pre : List CpuOutputPins) (r : StepResult) :
    stepOuts (prependOuts pre r) = pre ++ stepOuts r := by
  cases r <;> rfl

/-- `statSet` on the `LYC_EQUALS_LY` bit stores exactly the given value. -/
theorem statSetLycBit : ∀ s < 256, ∀ b : Bool,
    statContainsAll (statSet s STAT.LYC_EQUALS_LY b) STAT.LYC_EQUALS_LY = b := by
  decide

/-!
## Low-nibble preservation of the flag register, up to whole machine steps
-/

theorem funset_lowNib (f g : Nat) : funset f g &&& 0xF = 0 := by
  show (f &&& ((g ^^^ 0xFF) &&& 0xF0)) &&& 0xF = 0
  rw [Nat.and_assoc, Nat.and_assoc, (by decide : (0xF0 &&& 0xF : Nat) = 0),
    Nat.and_zero, Nat.and_zero]

theorem fset_lowNib (f g : Nat) (hf : f &&& 0xF = 0) (hg : g &&& 0xF = 0) :
    fset f g &&& 0xF = 0 := by
  show (f ||| g) &&& 0xF = 0
  rw [and_or_right, hf, hg]
  rfl

theorem fsetValue_lowNib (f g : Nat) (b : Bool) (hf : f &&& 0xF = 0)
    (hg : g &&& 0xF = 0) : fsetValue f g b &&& 0xF = 0 := by
  cases b
  · exact funset_lowNib f g
  · exact fset_lowNib f g hf hg

theorem fromU8_lowNib (v : Nat) : fromU8 v &&& 0xF = 0 := by
  show (v &&& 0xF0) &&& 0xF = 0
  rw [Nat.and_assoc, (by decide : (0xF0 &&& 0xF : Nat) = 0), Nat.and_zero]

theorem ZERO_lowNib : FRegister.ZERO &&& 0xF = 0 := by decide
theorem NEGATIVE_lowNib : FRegister.NEGATIVE &&& 0xF = 0 := by decide
theorem HALFCARRY_lowNib : FRegister.HALFCARRY &&& 0xF = 0 := by decide
theorem CARRY_lowNib : FRegister.CARRY &&& 0xF = 0 := by decide
theorem EMPTY_lowNib : FRegister.EMPTY &&& 0xF = 0 := by decide

theorem doMath_lowNib (regs : Registers) (v : Nat) (op : MathOperation)
    (hf : regs.f &&& 0xF = 0) : (doMath regs v op).f &&& 0xF = 0 := by
  cases op <;>
    simp only [doMath] <;>
    (repeat
      first
        | exact funset_lowNib _ _
        | exact hf
        | exact ZERO_lowNib
        | exact NEGATIVE_lowNib
        | exact HALFCARRY_lowNib
        | exact CARRY_lowNib
        | apply fsetValue_lowNib
        | apply fset_lowNib)

theorem doRotateShift_lowNib (regs : Registers) (v : Nat) (op : RotateShiftOperation)
    (_hf : regs.f &&& 0xF = 0) : (doRotateShift regs v op).1.f &&& 0xF = 0 := by
  cases op <;>
    simp only [doRotateShift] <;>
    (repeat
      first
        | exact funset_lowNib _ _
        | exact _hf
        | exact ZERO_lowNib
        | exact NEGATIVE_lowNib
        | exact HALFCARRY_lowNib
        | exact CARRY_lowNib
        | apply fsetValue_lowNib
        | apply fset_lowNib)

theorem daa_lowNib (regs : Registers) : (daa regs).f &&& 0xF = 0 := by
  simp only [daa]
  exact funset_lowNib _ _

theorem mainRotA_lowNib (cpu : Cpu) (op : RotateShiftOperation) :
    (mainRotA cpu op).registers.f &&& 0xF = 0 := by
  simp only [mainRotA]
  exact funset_lowNib _ _

/-- The DEC-style flag chain (set-value, set, set-value) keeps the low
nibble clear. -/
theorem decChain_lowNib (f : Nat) (z hc : Bool) (hf : f &&& 0xF = 0) :
    fsetValue (fset (fsetValue f FRegister.ZERO z) FRegister.NEGATIVE)
        FRegister.HALFCARRY hc &&& 0xF = 0 :=
  fsetValue_lowNib _ _ _
    (fset_lowNib _ _ (fsetValue_lowNib _ _ _ hf ZERO_lowNib) NEGATIVE_lowNib)
    HALFCARRY_lowNib

theorem set_bc_f (r : Registers) (v : Nat) : (r.set_bc v).f = r.f := rfl
theorem set_de_f (r : Registers) (v : Nat) : (r.set_de v).f = r.f := rfl
theorem set_hl_f (r : Registers) (v : Nat) : (r.set_hl v).f = r.f := rfl

theorem store8_f (cpu : Cpu) (v : Nat) (d : LoadDest) (ins : List CpuInputPins) :
    (store8 cpu v d ins).1.registers.f = cpu.registers.f := by
  cases d <;> rfl

theorem store16_lowNib (cpu : Cpu) (v : Nat) (d : LoadDest16Bit)
    (hf : cpu.registers.f &&& 0xF = 0) :
    (store16 cpu v d).registers.f &&& 0xF = 0 := by
  cases d
  · exact fromU8_lowNib _
  all_goals exact hf

theorem fetchByte_f (cpu : Cpu) : (fetchByte cpu).1.registers.f = cpu.registers.f := by
  simp [fetchByte]

theorem fetchByte_lowNib (cpu : Cpu) (hf : cpu.registers.f &&& 0xF = 0) :
    (fetchByte cpu).1.registers.f &&& 0xF = 0 := by
  rw [fetchByte_f]
  exact hf

theorem store8_lowNib (cpu : Cpu) (v : Nat) (d : LoadDest) (ins : List CpuInputPins)
    (hf : cpu.registers.f &&& 0xF = 0) :
    (store8 cpu v d ins).1.registers.f &&& 0xF = 0 := by
  rw [store8_f]
  exact hf

/-- Executing any instruction preserves a clear low nibble of F. -/
theorem execInstr_lowNib (cpu : Cpu) (op : Nat) (ins : List CpuInputPins)
    (cpu' : Cpu) (hl : Bool) (outs : List CpuOutputPins) (ins' : List CpuInputPins)
    (hf : cpu.registers.f &&& 0xF = 0)
    (heq : execInstr cpu op ins = StepResult.ok cpu' hl outs ins') :
    cpu'.registers.f &&& 0xF = 0 := by
  simp only [execInstr] at heq
  repeat' split at heq
  all_goals cases heq
  all_goals first
    | (simp only [fetchByte_f, store8_f, set_bc_f, set_de_f, set_hl_f]; exact hf)
    | exact hf
    | exact mainRotA_lowNib _ _
    | exact daa_lowNib _
    | exact store16_lowNib _ _ _ hf
    | exact store16_lowNib _ _ _ (fetchByte_lowNib _ (fetchByte_lowNib _ hf))
    | exact doMath_lowNib _ _ _ hf
    | exact doMath_lowNib _ _ _ (fetchByte_lowNib _ hf)
    | exact store8_lowNib _ _ _ _ hf
    | exact store8_lowNib _ _ _ _ (fetchByte_lowNib _ hf)
    | exact store8_lowNib _ _ _ _ (doRotateShift_lowNib _ _ _ (fetchByte_lowNib _ hf))
    | exact store8_lowNib _ _ _ _
        (fsetValue_lowNib _ _ _ (funset_lowNib _ _) HALFCARRY_lowNib)
    | exact store8_lowNib _ _ _ _
        (fsetValue_lowNib _ _ _
          (fset_lowNib _ _ (fsetValue_lowNib _ _ _ hf ZERO_lowNib) NEGATIVE_lowNib)
          HALFCARRY_lowNib)
    | exact fset_lowNib _ _ (fset_lowNib _ _ hf NEGATIVE_lowNib) HALFCARRY_lowNib
    | exact fset_lowNib _ _ (funset_lowNib _ _) CARRY_lowNib
    | exact fset_lowNib _ _ (funset_lowNib _ _) HALFCARRY_lowNib
    | exact fsetValue_lowNib _ _ _ (funset_lowNib _ _) CARRY_lowNib
    | exact fsetValue_lowNib _ _ _
        (fsetValue_lowNib _ _ _ EMPTY_lowNib CARRY_lowNib) HALFCARRY_lowNib
    | exact fsetValue_lowNib _ _ _
        (fsetValue_lowNib _ _ _ (funset_lowNib _ _) HALFCARRY_lowNib) CARRY_lowNib

theorem prependOuts_ok (pre : List CpuOutputPins) (r : StepResult) (cpu' : Cpu)
    (h : Bool) (outs : List CpuOutputPins) (ins' : List CpuInputPins)
    (heq : prependOuts pre r = StepResult.ok cpu' h outs ins') :
    ∃ outs0, r = StepResult.ok cpu' h outs0 ins' := by
  cases r
  · injection heq with h1 h2 h3 h4
    exact ⟨_, by rw [h1, h2, h4]⟩
  · exact absurd heq (by simp [prependOuts])

theorem serviceInterrupt_f (cpu : Cpu) (v : Nat) (ins : List CpuInputPins) :
    (serviceInterrupt cpu v ins).1.registers.f = cpu.registers.f := by
  simp [serviceInterrupt]

/-- The halted-wait / fetch-execute tail preserves a clear low nibble of F. -/
theorem loopFetch_lowNib (cpu : Cpu) (halted : Bool) (outsInt : List CpuOutputPins)
    (ins : List CpuInputPins) (cpu' : Cpu) (h : Bool) (outs : List CpuOutputPins)
    (ins' : List CpuInputPins) (hf : cpu.registers.f &&& 0xF = 0)
    (heq : loopFetch cpu halted outsInt ins = StepResult.ok cpu' h outs ins') :
    cpu'.registers.f &&& 0xF = 0 := by
  unfold loopFetch at heq
  cases halted
  · rw [if_neg (by simp)] at heq
    obtain ⟨outs0, h0⟩ := prependOuts_ok _ _ _ _ _ _ heq
    exact execInstr_lowNib _ _ _ _ _ _ _
      (show (fetchByte cpu).1.registers.f &&& 0xF = 0 from hf) h0
  · rw [if_pos rfl] at heq
    injection heq with h1 h2 h3 h4
    rw [← h1]
    exact hf

/-- A whole machine iteration (interrupt dispatch, halt wait, fetch and
execute) preserves a clear low nibble of F. -/
theorem loopIter_lowNib (cpu : Cpu) (halted : Bool) (pins : CpuInputPins)
    (ins : List CpuInputPins) (cpu' : Cpu) (h : Bool) (outs : List CpuOutputPins)
    (ins' : List CpuInputPins) (hf : cpu.registers.f &&& 0xF = 0)
    (heq : loopIter cpu halted pins ins = StepResult.ok cpu' h outs ins') :
    cpu'.registers.f &&& 0xF = 0 := by
  unfold loopIter at heq
  rcases hvi : interruptVector pins with - | v
  · rw [hvi] at heq
    exact loopFetch_lowNib _ _ _ _ _ _ _ _ hf heq
  · rw [hvi] at heq
    have heq2 : (if cpu.ime = true then
          loopFetch (serviceInterrupt cpu v ins).1 false
            (serviceInterrupt cpu v ins).2.1 (serviceInterrupt cpu v ins).2.2
        else loopFetch cpu false [] ins) = StepResult.ok cpu' h outs ins' := heq
    by_cases hime : cpu.ime = true
    · rw [if_pos hime] at heq2
      have hf2 : (serviceInterrupt cpu v ins).1.registers.f &&& 0xF = 0 := by
        rw [serviceInterrupt_f]
        exact hf
      exact loopFetch_lowNib _ _ _ _ _ _ _ _ hf2 heq2
    · rw [if_neg hime] at heq2
      exact loopFetch_lowNib _ _ _ _ _ _ _ _ hf heq2

/-!
## Claim theorems
-/

/-- Claim C1, counterexample: `perform_io` writes to 0xFF45 (LYC) do not
refresh `STAT.LYC_EQUALS_LY`.  Starting from a state where the bit is
consistent (`LY = LYC = 0`, bit set), writing `LYC := 5` leaves the bit set
even though `LY ≠ LYC`. -/
theorem claim1_counterexample :
    statContainsAll ((perform_io { PpuState.new with stat := 0x04 }
        (CpuOutputPins.Write 0xFF45 5) 0 0).1).stat STAT.LYC_EQUALS_LY = true ∧
    ((perform_io { PpuState.new with stat := 0x04 }
        (CpuOutputPins.Write 0xFF45 5) 0 0).1).ly ≠
      ((perform_io { PpuState.new with stat := 0x04 }
        (CpuOutputPins.Write 0xFF45 5) 0 0).1).lyc := by
  constructor
  · decide
  · decide

/-- Claim C1, amended: CPU bus writes to 0xFF44 (LY) and 0xFF45 (LYC) store
the raw register and leave STAT (hence `LYC_EQUAL`) untouched; the
`LYC_EQUAL = (LY = LYC)` relation is established only by the internal
scanline advance `set_ly`. -/
theorem claim1_theorem : ∀ (st : PpuState) (v d irq n : Nat), st.stat < 256 →
    (perform_io st (CpuOutputPins.Write 0xFF44 v) d irq).1 = { st with ly := v } ∧
    (perform_io st (CpuOutputPins.Write 0xFF45 v) d irq).1 = { st with lyc := v } ∧
    statContainsAll (setLy st n).stat STAT.LYC_EQUALS_LY = ((setLy st n).ly == (setLy st n).lyc) := by
  intro st v d irq n hs
  refine ⟨rfl, rfl, ?_⟩
  exact statSetLycBit st.stat hs (n == st.lyc)

/-- Claim C1 witness: instantiated at the reset PPU state. -/
theorem claim1_witness :
    (perform_io PpuState.new (CpuOutputPins.Write 0xFF44 7) 0 0).1
      = { PpuState.new with ly := 7 } ∧
    (perform_io PpuState.new (CpuOutputPins.Write 0xFF45 7) 0 0).1
      = { PpuState.new with lyc := 7 } ∧
    statContainsAll (setLy PpuState.new 3).stat STAT.LYC_EQUALS_LY
      = ((setLy PpuState.new 3).ly == (setLy PpuState.new 3).lyc) :=
  claim1_theorem PpuState.new 7 0 0 3 (by decide)

/-- Claim C2, counterexample: a CPU write to 0xFF41 (STAT) does NOT preserve
the low 2 mode bits: with STAT in mode 3, writing 0 puts the stored mode at
0. -/
theorem claim2_counterexample :
    statMode ((perform_io { PpuState.new with stat := 0x03 }
        (CpuOutputPins.Write 0xFF41 0) 0 0).1).stat ≠ statMode (0x03 : Nat) := by
  decide

/-- Claim C2, amended: a write of `v` to 0xFF41 replaces the whole STAT
register with `v & 0x7F` (`STAT::from_bits_truncate`), clobbering the mode
bits and the LYC_EQUAL bit, and then recomputes the `stat_irq` latch
(`update_stat_interrupt`). -/
theorem claim2_theorem : ∀ (st : PpuState) (v d irq : Nat),
    (perform_io st (CpuOutputPins.Write 0xFF41 v) d irq).1
      = updateStatInterrupt { st with stat := statFromBits v } ∧
    ((perform_io st (CpuOutputPins.Write 0xFF41 v) d irq).1).stat = v &&& 0x7F :=
  fun _ _ _ _ => ⟨rfl, rfl⟩

/-- Claim C7: the flag register's low nibble is unwritable.  `From<u8>`
masks to 0xF0 (so any value stored through it, including `set_af` / POP AF,
has a zero low nibble), every flag operation (`set`, `unset`, `set_value`)
preserves a zero low nibble, and every flag constant has a zero low
nibble. -/
theorem claim7_theorem :
    (∀ v : Nat, fromU8 v &&& 0xF = 0) ∧
    (∀ f g : Nat, f &&& 0xF = 0 → g &&& 0xF = 0 → fset f g &&& 0xF = 0) ∧
    (∀ f g : Nat, funset f g &&& 0xF = 0) ∧
    (∀ (f g : Nat) (b : Bool), f &&& 0xF = 0 → g &&& 0xF = 0 →
      fsetValue f g b &&& 0xF = 0) ∧
    (FRegister.EMPTY &&& 0xF = 0 ∧ FRegister.ZERO &&& 0xF = 0 ∧
      FRegister.NEGATIVE &&& 0xF = 0 ∧ FRegister.HALFCARRY &&& 0xF = 0 ∧
      FRegister.CARRY &&& 0xF = 0) ∧
    (∀ (r : Registers) (v : Nat),
      (r.set_af v).f = (v &&& 0xFF) &&& 0xF0 ∧ (r.set_af v).f &&& 0xF = 0) ∧
    (∀ (cpu : Cpu) (halted : Bool) (pins : CpuInputPins) (ins : List CpuInputPins)
        (cpu' : Cpu) (h : Bool) (outs : List CpuOutputPins)
        (ins' : List CpuInputPins),
      cpu.registers.f &&& 0xF = 0 →
      loopIter cpu halted pins ins = StepResult.ok cpu' h outs ins' →
      cpu'.registers.f &&& 0xF = 0) := by
  have hFrom : ∀ v : Nat, fromU8 v &&& 0xF = 0 := by
    intro v
    show (v &&& 0xF0) &&& 0xF = 0
    rw [Nat.and_assoc, (by decide : (0xF0 &&& 0xF : Nat) = 0), Nat.and_zero]
  have hUnset : ∀ f g : Nat, funset f g &&& 0xF = 0 := by
    intro f g
    show (f &&& ((g ^^^ 0xFF) &&& 0xF0)) &&& 0xF = 0
    rw [Nat.and_assoc, Nat.and_assoc, (by decide : (0xF0 &&& 0xF : Nat) = 0),
      Nat.and_zero, Nat.and_zero]
  have hSet : ∀ f g : Nat, f &&& 0xF = 0 → g &&& 0xF = 0 → fset f g &&& 0xF = 0 := by
    intro f g hf hg
    show (f ||| g) &&& 0xF = 0
    rw [and_or_right, hf, hg]
    rfl
  refine ⟨hFrom, hSet, hUnset, ?_, by decide, ?_, ?_⟩
  · intro f g b hf hg
    cases b
    · exact hUnset f g
    · exact hSet f g hf hg
  · intro r v
    exact ⟨rfl, hFrom (v &&& 0xFF)⟩
  · intro cpu halted pins ins cpu' h outs ins' hf heq
    exact loopIter_lowNib cpu halted pins ins cpu' h outs ins' hf heq

/-- Claim C7 witness: instantiated at concrete flag values, and at a
concrete machine step (a NOP fetched from PC 0). -/
theorem claim7_witness :
    fset 0xB0 0x40 &&& 0xF = 0 ∧ fsetValue 0xB0 0x10 true &&& 0xF = 0 ∧
    ({ registers :=
        { a := 0x3A, f := 0, b := 0xC6, c := 0, d := 0, e := 0, h := 0, l := 0,
          sp := 0xFFFE, pc := 1 },
       ime := false } : Cpu).registers.f &&& 0xF = 0 :=
  ⟨claim7_theorem.2.1 0xB0 0x40 (by decide) (by decide),
   claim7_theorem.2.2.2.1 0xB0 0x10 true (by decide) (by decide),
   claim7_theorem.2.2.2.2.2.2 cpuS1 false default [pinsData 0x00]
     { registers :=
        { a := 0x3A, f := 0, b := 0xC6, c := 0, d := 0, e := 0, h := 0, l := 0,
          sp := 0xFFFE, pc := 1 },
       ime := false } false
     [CpuOutputPins.Read 0] [] (by decide) (by decide)⟩

/-- Claim C5: ADD sets `A := (a + v) mod 256`, `Z` iff the result is 0,
clears `N`, sets `H` iff `(a and 0xF) + (v and 0xF) ≥ 0x10`, and sets `C` iff
`a + v > 0xFF`; and scenario S1: from `A = 0x3A`, `B = 0xC6`, `F = 0`,
executing opcode 0x80 (ADD A,B) takes 1 M-cycle and leaves `A = 0x00`,
`F = 0xB0`. -/
theorem claim5_theorem : ∀ (regs : Registers) (v : Nat),
    regs.a < 256 → v < 256 → regs.f < 256 →
    ((doMath regs v .Add).a = (regs.a + v) % 256 ∧
     (doMath regs v .Add).f =
       (if (regs.a + v) % 256 = 0 then 0x80 else 0)
         + (if 0x10 ≤ (regs.a &&& 0xF) + (v &&& 0xF) then 0x20 else 0)
         + (if 0xFF < regs.a + v then 0x10 else 0)) ∧
    loopIter cpuS1 false default [pinsData 0x80] =
      StepResult.ok
        { registers :=
            { a := 0, f := 0xB0, b := 0xC6, c := 0, d := 0, e := 0, h := 0, l := 0,
              sp := 0xFFFE, pc := 1 },
          ime := false }
        false [CpuOutputPins.Read 0] [] := by
  intro regs v _ha _hv hf
  refine ⟨⟨rfl, ?_⟩, by decide⟩
  refine (addFlagChain regs.f hf (u8 (regs.a + v) == 0)
    (decide (0x10 ≤ (regs.a &&& 0x0F) + (v &&& 0x0F)))
    (decide (255 < regs.a + v))).trans ?_
  simp only [u8, beq_iff_eq, decide_eq_true_eq]

/-- Claim C5 witness: instantiated at scenario S1's operands `0x3A + 0xC6`. -/
theorem claim5_witness :
    (doMath cpuS1.registers 0xC6 .Add).a = (cpuS1.registers.a + 0xC6) % 256 ∧
    (doMath cpuS1.registers 0xC6 .Add).f =
      (if (cpuS1.registers.a + 0xC6) % 256 = 0 then 0x80 else 0)
        + (if 0x10 ≤ (cpuS1.registers.a &&& 0xF) + (0xC6 &&& 0xF) then 0x20 else 0)
        + (if 0xFF < cpuS1.registers.a + 0xC6 then 0x10 else 0) :=
  (claim5_theorem cpuS1.registers 0xC6 (by decide) (by decide) (by decide)).1

/-- Claim C8: RLCA/RRCA/RLA/RRA leave F equal to its CARRY bit only (Z, N, H
cleared, C = the rotated-out bit), while the CB-prefixed rotate/shift
operations set Z iff the 8-bit result is 0, clear N and H, and set C to the
rotated-out bit. -/
theorem claim8_theorem : ∀ (cpu : Cpu) (regs : Registers) (v : Nat),
    cpu.registers.f < 256 → regs.f < 256 →
    ((mainRotA cpu .RLC).registers.f = (if cpu.registers.a &&& 0x80 ≠ 0 then 0x10 else 0) ∧
     (mainRotA cpu .RRC).registers.f = (if cpu.registers.a &&& 0x01 ≠ 0 then 0x10 else 0) ∧
     (mainRotA cpu .RL).registers.f = (if cpu.registers.a &&& 0x80 ≠ 0 then 0x10 else 0) ∧
     (mainRotA cpu .RR).registers.f = (if cpu.registers.a &&& 0x01 ≠ 0 then 0x10 else 0)) ∧
    ((doRotateShift regs v .RLC).1.f =
        (if (doRotateShift regs v .RLC).2 = 0 then 0x80 else 0)
          + (if v &&& 0x80 ≠ 0 then 0x10 else 0) ∧
     (doRotateShift regs v .RRC).1.f =
        (if (doRotateShift regs v .RRC).2 = 0 then 0x80 else 0)
          + (if v &&& 0x01 ≠ 0 then 0x10 else 0) ∧
     (doRotateShift regs v .RL).1.f =
        (if (doRotateShift regs v .RL).2 = 0 then 0x80 else 0)
          + (if v &&& 0x80 ≠ 0 then 0x10 else 0) ∧
     (doRotateShift regs v .RR).1.f =
        (if (doRotateShift regs v .RR).2 = 0 then 0x80 else 0)
          + (if v &&& 0x01 ≠ 0 then 0x10 else 0) ∧
     (doRotateShift regs v .SLA).1.f =
        (if (doRotateShift regs v .SLA).2 = 0 then 0x80 else 0)
          + (if v &&& 0x80 ≠ 0 then 0x10 else 0) ∧
     (doRotateShift regs v .SRA).1.f =
        (if (doRotateShift regs v .SRA).2 = 0 then 0x80 else 0)
          + (if v &&& 0x01 ≠ 0 then 0x10 else 0) ∧
     (doRotateShift regs v .SRL).1.f =
        (if (doRotateShift regs v .SRL).2 = 0 then 0x80 else 0)
          + (if v &&& 0x01 ≠ 0 then 0x10 else 0)) := by
  intro cpu regs v hcf hf
  have cbCase : ∀ (z c : Bool) (res : Nat), (z = (res == 0)) →
      fsetValue (funset (funset (fsetValue regs.f FRegister.ZERO z) FRegister.NEGATIVE)
          FRegister.HALFCARRY) FRegister.CARRY c
        = (if res = 0 then 0x80 else 0) + (if c = true then 0x10 else 0) := by
    intro z c res hz
    refine (rotFlagChain regs.f hf z c).trans ?_
    subst hz
    simp only [beq_iff_eq]
  have mainCase : ∀ (z c : Bool),
      funset ((if z then 0x80 else 0) + (if c then 0x10 else 0))
          (((if z then 0x80 else 0) + (if c then 0x10 else 0)) &&& fnot FRegister.CARRY)
        = (if c = true then 0x10 else 0) := by
    intro z c
    have hb : (if z then 0x80 else 0) + (if c then 0x10 else 0) < 256 := by
      cases z <;> cases c <;> decide
    refine (mainRotMask _ hb).trans ?_
    cases z <;> cases c <;> decide
  constructor
  · have main : ∀ (op : RotateShiftOperation) (z c : Bool),
        fsetValue (funset (funset (fsetValue cpu.registers.f FRegister.ZERO z)
            FRegister.NEGATIVE) FRegister.HALFCARRY) FRegister.CARRY c
          = (if z then 0x80 else 0) + (if c then 0x10 else 0) :=
      fun _ z c => rotFlagChain cpu.registers.f hcf z c
    refine ⟨?_, ?_, ?_, ?_⟩ <;>
      · show funset _ (_ &&& fnot FRegister.CARRY) = _
        rw [main .RLC, mainCase]
        simp only [decide_eq_true_eq]
  · refine ⟨?_, ?_, ?_, ?_, ?_, ?_, ?_⟩ <;>
      · refine (cbCase _ _ _ rfl).trans ?_
        simp only [decide_eq_true_eq]
        rfl

/-- Claim C8 witness: instantiated at `A = 0x81`, `F = 0`. -/
theorem claim8_witness :
    (mainRotA cpuS1 .RLC).registers.f
        = (if cpuS1.registers.a &&& 0x80 ≠ 0 then 0x10 else 0) ∧
    (doRotateShift cpuS1.registers 0x81 .RLC).1.f =
      (if (doRotateShift cpuS1.registers 0x81 .RLC).2 = 0 then 0x80 else 0)
        + (if (0x81 : Nat) &&& 0x80 ≠ 0 then 0x10 else 0) :=
  ⟨(claim8_theorem cpuS1 cpuS1.registers 0x81 (by decide) (by decide)).1.1,
   (claim8_theorem cpuS1 cpuS1.registers 0x81 (by decide) (by decide)).2.1⟩

/-- Claim C9: fetching any opcode from the GBZ80 undefined gaps makes the
CPU step panic without executing any instruction semantics: `execInstr`
returns `panicked` with no bus request yielded, and a full machine iteration
(no interrupt pending) panics right after the fetch cycle. -/
theorem claim9_theorem : ∀ (cpu : Cpu) (pins : CpuInputPins)
    (ins : List CpuInputPins) (op : Nat),
    op ∈ [0xD3, 0xDB, 0xDD, 0xE3, 0xE4, 0xEB, 0xEC, 0xED, 0xF4, 0xFC, 0xFD] →
    execInstr cpu op ins = StepResult.panicked [] ∧
    (interruptVector pins = none → (ins.headD default).data = op →
      loopIter cpu false pins ins
        = StepResult.panicked [CpuOutputPins.Read cpu.registers.pc]) := by
  intro cpu pins ins op hop
  fin_cases hop <;>
    exact ⟨rfl, fun h1 h2 => by
      simp only [loopIter, loopFetch, h1, h2, fetchByte, prependOuts]
      rfl⟩

/-- Claim C9 witness: opcode 0xD3 at a concrete machine state. -/
theorem claim9_witness :
    loopIter cpuS1 false default [pinsData 0xD3]
      = StepResult.panicked [CpuOutputPins.Read cpuS1.registers.pc] :=
  (claim9_theorem cpuS1 default [pinsData 0xD3] 0xD3 (by decide)).2 rfl rfl

/-- Claim C4: with IME set and an interrupt line asserted at the loop top,
the CPU performs the 5-M-cycle dispatch: read 0xFF0F, write it back with the
serviced bit cleared, push PC high at SP-1, push PC low at SP-2, jump to the
vector (lowest-address line winning), clear IME, and spend one NOP cycle;
and scenario S4 holds concretely (including the bytes landing in high RAM at
0xFFFD / 0xFFFC). -/
theorem claim4_theorem :
    (∀ pins : CpuInputPins,
      (pins.interrupt_40h = true → interruptVector pins = some 0x40) ∧
      (pins.interrupt_40h = false → pins.interrupt_48h = true →
        interruptVector pins = some 0x48) ∧
      (pins.interrupt_40h = false → pins.interrupt_48h = false →
        pins.interrupt_50h = true → interruptVector pins = some 0x50) ∧
      (pins.interrupt_40h = false → pins.interrupt_48h = false →
        pins.interrupt_50h = false → pins.interrupt_58h = true →
        interruptVector pins = some 0x58) ∧
      (pins.interrupt_40h = false → pins.interrupt_48h = false →
        pins.interrupt_50h = false → pins.interrupt_58h = false →
        pins.interrupt_60h = true → interruptVector pins = some 0x60)) ∧
    (∀ (cpu : Cpu) (ins : List CpuInputPins) (k : Nat), k < 5 →
      serviceInterrupt cpu (0x40 + 8 * k) ins =
        ({ cpu with
            registers := { cpu.registers with
              sp := wsub16 (wsub16 cpu.registers.sp 1) 1, pc := 0x40 + 8 * k },
            ime := false },
         [CpuOutputPins.Read 0xFF0F,
          CpuOutputPins.Write 0xFF0F ((ins.headD default).data &&& ((1 <<< k) ^^^ 0xFF)),
          CpuOutputPins.Write (wsub16 cpu.registers.sp 1) (cpu.registers.pc >>> 8),
          CpuOutputPins.Write (wsub16 (wsub16 cpu.registers.sp 1) 1)
            (cpu.registers.pc &&& 0xFF),
          CpuOutputPins.Read 0],
         ins.tail.tail.tail.tail.tail)) ∧
    (∀ (cpu : Cpu) (halted : Bool) (pins : CpuInputPins) (ins : List CpuInputPins),
      cpu.ime = true → pins.interrupt_40h = true →
      (stepOuts (loopIter cpu halted pins ins)).take 5 =
        [CpuOutputPins.Read 0xFF0F,
         CpuOutputPins.Write 0xFF0F ((ins.headD default).data &&& 0xFE),
         CpuOutputPins.Write (wsub16 cpu.registers.sp 1) (cpu.registers.pc >>> 8),
         CpuOutputPins.Write (wsub16 (wsub16 cpu.registers.sp 1) 1)
           (cpu.registers.pc &&& 0xFF),
         CpuOutputPins.Read 0]) ∧
    (serviceInterrupt cpuS4 0x40 insS4 =
      ({ registers :=
           { a := 0, f := 0, b := 0, c := 0, d := 0, e := 0, h := 0, l := 0,
             sp := 0xFFFC, pc := 0x40 },
         ime := false },
       [CpuOutputPins.Read 0xFF0F, CpuOutputPins.Write 0xFF0F 0x00,
        CpuOutputPins.Write 0xFFFD 0x12, CpuOutputPins.Write 0xFFFC 0x34,
        CpuOutputPins.Read 0], []) ∧
     (memApply Memory.new (serviceInterrupt cpuS4 0x40 insS4).2.1).map
         (fun m => (m.read 0xFFFD, m.read 0xFFFC))
       = some (some 0x12, some 0x34)) := by
  refine ⟨?_, ?_, ?_, by decide, by decide⟩
  · intro pins
    refine ⟨?_, ?_, ?_, ?_, ?_⟩ <;>
      · intros
        simp only [interruptVector]
        simp_all
  · intro cpu ins k hk
    interval_cases k <;> rfl
  · intro cpu halted pins ins hime h40
    have hv : interruptVector pins = some 0x40 := by
      simp only [interruptVector, h40]
      rfl
    simp only [loopIter, loopFetch, hv, hime, serviceInterrupt, Bool.false_eq_true,
      if_false, if_true]
    rw [stepOuts_prependOuts]
    rfl

/-- Claim C4 witness: the take-5 dispatch trace at scenario S4's state. -/
theorem claim4_witness :
    (stepOuts (loopIter cpuS4 false
        { data := 0, interrupt_40h := true, interrupt_48h := false,
          interrupt_50h := false, interrupt_58h := false, interrupt_60h := false }
        insS4)).take 5 =
      [CpuOutputPins.Read 0xFF0F,
       CpuOutputPins.Write 0xFF0F ((insS4.headD default).data &&& 0xFE),
       CpuOutputPins.Write (wsub16 cpuS4.registers.sp 1) (cpuS4.registers.pc >>> 8),
       CpuOutputPins.Write (wsub16 (wsub16 cpuS4.registers.sp 1) 1)
         (cpuS4.registers.pc &&& 0xFF),
       CpuOutputPins.Read 0] :=
  claim4_theorem.2.2.1 cpuS4 false _ insS4 rfl rfl

/-- Claim C6: a write of `v` to 0xFF46 puts the DMA engine in
`ActiveFirstRead{v * 0x100}`; the first `clock_dma` cycle issues the read of
the source base and becomes `Active`; each subsequent cycle stores
`input.data` into `OAM[addr mod 0x100]` and issues `Read{addr+1}`, except at
offset 0x9F where it stores the byte, becomes `Inactive`, and issues
`Read{0}`; and scenario S5 holds end-to-end (`OAM[i] = i` for `i < 160`,
DMA inactive, 0xFF46 reads back 0 after `1 + 160` cycles). -/
theorem claim6_theorem :
    (∀ (st : PpuState) (v d irq : Nat),
      (perform_io st (CpuOutputPins.Write 0xFF46 v) d irq).1
        = { st with dma_transfer := DmaState.ActiveFirstRead (v * 0x100) }) ∧
    (∀ (st : PpuState) (addr : Nat) (input : CpuInputPins),
      st.dma_transfer = DmaState.ActiveFirstRead addr →
      clock_dma st input
        = some ({ st with dma_transfer := DmaState.Active addr },
            CpuOutputPins.Read addr)) ∧
    (∀ (st : PpuState) (addr : Nat) (input : CpuInputPins),
      st.dma_transfer = DmaState.Active addr → addr % 0x100 ≠ 0x9F →
      clock_dma st input
        = some ({ st with
              oam := memSet st.oam (addr % 0x100) input.data,
              dma_transfer := DmaState.Active (addr + 1) },
            CpuOutputPins.Read (addr + 1))) ∧
    (∀ (st : PpuState) (addr : Nat) (input : CpuInputPins),
      st.dma_transfer = DmaState.Active addr → addr % 0x100 = 0x9F →
      clock_dma st input
        = some ({ st with
              oam := memSet st.oam (addr % 0x100) input.data,
              dma_transfer := DmaState.Inactive },
            CpuOutputPins.Read 0)) ∧
    dmaScenarioCheck = true := by
  refine ⟨fun st v d irq => rfl, ?_, ?_, ?_, by decide⟩
  · intro st addr input h
    simp only [clock_dma, h]
  · intro st addr input h hne
    have hb : (addr % 0x100 == 0x9F) = false := by
      simpa using hne
    simp only [clock_dma, h, hb, Bool.false_eq_true, if_false]
  · intro st addr input h h9
    have hb : (addr % 0x100 == 0x9F) = true := by
      simpa using h9
    simp only [clock_dma, h, hb, if_true]

/-- Claim C6 witness: one running-DMA cycle at source address 0xC000. -/
theorem claim6_witness :
    clock_dma stDmaW (pinsData 0xAB)
      = some ({ stDmaW with
            oam := memSet stDmaW.oam (0xC000 % 0x100) (pinsData 0xAB).data,
            dma_transfer := DmaState.Active (0xC000 + 1) },
          CpuOutputPins.Read (0xC000 + 1)) :=
  claim6_theorem.2.2.1 stDmaW 0xC000 (pinsData 0xAB) rfl (by decide)

/-- The OAM-scan qualification test never hits the checked `u8` additions'
overflow for visible scanlines: the short-circuit `&&` only evaluates
`ypos + sprite_height` when `ypos ≤ scanline + 16 ≤ 159`. -/
theorem spriteQualifies_isSome (scanline ypos xpos height : Nat)
    (hs : scanline < 144) (hh : height = 8 ∨ height = 16) :
    (spriteQualifies scanline ypos xpos height).isSome = true := by
  unfold spriteQualifies checkedAddU8
  by_cases hx : xpos > 0
  · by_cases hle : ypos ≤ scanline + 16
    · simp only [if_pos hx, if_pos (show scanline + 16 ≤ 255 by omega), if_pos hle,
        if_pos (show ypos + height ≤ 255 by rcases hh with h | h <;> omega)]
      rfl
    · simp only [if_pos hx, if_pos (show scanline + 16 ≤ 255 by omega), if_neg hle]
      rfl
  · simp only [if_neg hx]
    rfl

/-- `sprite_height` is 8 or 16. -/
theorem spriteHeight_cases (st : PpuState) :
    st.spriteHeight = 8 ∨ st.spriteHeight = 16 := by
  unfold PpuState.spriteHeight
  by_cases h : lcdcContains st.lcdc LCDC.OBJ_SIZE = true
  · rw [if_pos h]
    exact Or.inr rfl
  · rw [if_neg h]
    exact Or.inl rfl

/-- The whole mode-2 OAM search is total on visible scanlines. -/
theorem oamScanGo_isSome (st : PpuState) (scanline : Nat) (hs : scanline < 144) :
    ∀ (n : Nat) (buf : List OamEntry) (len : Nat),
      (oamScanGo st scanline n buf len).isSome = true := by
  intro n
  induction n with
  | zero => intro buf len; rfl
  | succ k ih =>
    intro buf len
    unfold oamScanGo
    by_cases hl : len < 10
    · rw [if_pos hl]
      have hq := spriteQualifies_isSome scanline (st.oamEntry (40 - (k + 1))).ypos
        (st.oamEntry (40 - (k + 1))).xpos st.spriteHeight hs (spriteHeight_cases st)
      obtain ⟨b, hb⟩ := Option.isSome_iff_exists.mp hq
      simp only [hb]
      cases b
      · exact ih buf len
      · exact ih (buf.set len (st.oamEntry (40 - (k + 1)))) (len + 1)
    · rw [if_neg hl]
      exact ih buf len

/-- Claim C10: the OAM-scan sprite qualification test is total for every
visible scanline and every 8-bit `ypos`: the checked `u8` computation never
overflows (thanks to the short-circuit `&&`, the `ypos + sprite_height` sum
is only evaluated when `ypos ≤ scanline + 16`), so mode-2 OAM search never
panics. -/
theorem claim10_theorem : ∀ (st : PpuState) (scanline ypos xpos : Nat),
    scanline < 144 →
    (spriteQualifies scanline ypos xpos st.spriteHeight).isSome = true ∧
    (oamScan st scanline).isSome = true := by
  intro st scanline ypos xpos hs
  constructor
  · exact spriteQualifies_isSome scanline ypos xpos st.spriteHeight hs
      (spriteHeight_cases st)
  · exact oamScanGo_isSome st scanline hs 40 _ 0

/-- Claim C10 witness: the extreme `ypos = 255` with a nonzero `xpos` on
scanline 0 of the reset PPU state. -/
theorem claim10_witness :
    (spriteQualifies 0 255 1 PpuState.new.spriteHeight).isSome = true ∧
    (oamScan PpuState.new 0).isSome = true :=
  claim10_theorem PpuState.new 0 255 1 (by decide)

/-- Dot accounting of the drawing loop: every iteration yields one dot and
advances `cycles` by one, and each dispatched sprite fetch yields 6 extra
dots without advancing `cycles`. -/
theorem drawLoop_shape : ∀ (fuel : Nat) (st : PpuState) (buf : List OamEntry)
    (bgF : BgPixelFifo) (sprF : SpritePixelFifo) (x : Int) (cycles : Nat)
    (iw wy : Bool) (wl y0 f0 : Nat) (st2 : PpuState) (c2 y2 f2 : Nat),
    drawLoop fuel st buf bgF sprF x cycles iw wy wl y0 f0 = some (st2, c2, y2, f2) →
    cycles ≤ c2 ∧ y2 + cycles + 6 * f0 = y0 + c2 + 6 * f2 := by
  intro fuel
  induction fuel with
  | zero =>
    intro st buf bgF sprF x cycles iw wy wl y0 f0 st2 c2 y2 f2 h
    exact absurd h (by simp [drawLoop])
  | succ k ih =>
    intro st buf bgF sprF x cycles iw wy wl y0 f0 st2 c2 y2 f2 h
    simp only [drawLoop] at h
    split at h
    · split at h
      · split at h
        · have := ih _ _ _ _ _ _ _ _ _ _ _ _ _ _ _ h
          omega
        · have := ih _ _ _ _ _ _ _ _ _ _ _ _ _ _ _ h
          omega
      · have := ih _ _ _ _ _ _ _ _ _ _ _ _ _ _ _ h
        omega
    · simp only [Option.some.injEq, Prod.mk.injEq] at h
      omega

/-- Dot accounting of one visible scanline: 80 OAM-scan dots, the drawing
loop, and HBlank padding to the 456-dot budget give
`max 456 cEnd + 6 * fetches` dots in all. -/
theorem scanlineRun_shape : ∀ (st : PpuState) (scanline : Nat) (wy : Bool)
    (wl : Nat) (r : PpuState × Bool × Nat × Nat × Nat),
    scanlineRun st scanline wy wl = some r →
    ∃ c, 80 ≤ c ∧ r.2.2.2.1 = max 456 c + 6 * r.2.2.2.2 := by
  intro st scanline wy wl r h
  simp only [scanlineRun] at h
  split at h
  · exact absurd h (by simp)
  · split at h
    · exact absurd h (by simp)
    · rename_i st1 cycles drawYields fetches heq
      obtain ⟨hc, hacct⟩ := drawLoop_shape _ _ _ _ _ _ _ _ _ _ _ _ _ _ _ _ heq
      simp only [Option.some.injEq] at h
      subst h
      refine ⟨cycles, by omega, ?_⟩
      simp only
      rcases Nat.le_total cycles 456 with hle | hle
      · rw [Nat.max_eq_left hle]
        omega
      · rw [Nat.max_eq_right hle]
        omega

/-- Structure of the visible-scanline loop: one dot-count entry is appended
per scanline, the accumulator sums them, and every appended entry has the
`max 456 c + 6 * s` shape (in particular is at least 456). -/
theorem visibleLoop_shape : ∀ (n : Nat) (st : PpuState) (wy : Bool)
    (wl acc : Nat) (lines : List Nat) (st2 : PpuState) (wy2 : Bool)
    (wl2 acc2 : Nat) (lines2 : List Nat),
    visibleLoop n st wy wl acc lines = some (st2, wy2, wl2, acc2, lines2) →
    lines2.length = lines.length + n ∧ acc2 + lines.sum = acc + lines2.sum ∧
      (∀ y ∈ lines2, y ∈ lines ∨ 456 ≤ y) := by
  intro n
  induction n with
  | zero =>
    intro st wy wl acc lines st2 wy2 wl2 acc2 lines2 h
    simp only [visibleLoop, Option.some.injEq, Prod.mk.injEq] at h
    obtain ⟨-, -, -, h4, h5⟩ := h
    subst h4
    subst h5
    exact ⟨rfl, by omega, fun y hy => Or.inl hy⟩
  | succ k ih =>
    intro st wy wl acc lines st2 wy2 wl2 acc2 lines2 h
    simp only [visibleLoop] at h
    split at h
    · exact absurd h (by simp)
    · rename_i st1 wy1 wl1 y fs heq
      obtain ⟨hlen, hsum, hmem⟩ := ih _ _ _ _ _ _ _ _ _ _ h
      have hy456 : 456 ≤ y := by
        obtain ⟨c, -, hshape⟩ := scanlineRun_shape _ _ _ _ _ heq
        have hshape2 : y = max 456 c + 6 * fs := hshape
        have := Nat.le_max_left 456 c
        omega
      have hlen2 : lines2.length = lines.length + 1 + k := by simpa using hlen
      refine ⟨by omega, ?_, ?_⟩
      · have : (lines ++ [y]).sum = lines.sum + y := by simp
        omega
      · intro z hz
        rcases hmem z hz with hin | hge
        · rcases List.mem_append.mp hin with hin2 | hin2
          · exact Or.inl hin2
          · have : z = y := by simpa using hin2
            exact Or.inr (this ▸ hy456)
        · exact Or.inr hge

/-- The VBlank loop appends ten 456-dot scanlines. -/
theorem vblankLoop_shape : ∀ (n : Nat) (st : PpuState) (acc : Nat)
    (lines : List Nat),
    (vblankLoop n st acc lines).2.1 = acc + 456 * n ∧
    (vblankLoop n st acc lines).2.2 = lines ++ List.replicate n 456 := by
  intro n
  induction n with
  | zero => intro st acc lines; exact ⟨by simp [vblankLoop], by simp [vblankLoop]⟩
  | succ k ih =>
    intro st acc lines
    simp only [vblankLoop]
    obtain ⟨h1, h2⟩ := ih (setLy st (154 - (k + 1))) (acc + 456) (lines ++ [456])
    refine ⟨by rw [h1]; ring, ?_⟩
    rw [h2]
    simp [List.replicate_succ, List.append_assoc]

/-- Claim C3, counterexample: with one qualifying sprite (OAM entry 0 at
`ypos = 16`, `xpos = 8`), scanline 0 takes 462 dots between LY advances,
not 456: the 6 dots of the sprite fetch are yielded on top of the 456-dot
budget, because they do not advance the `cycles` counter that HBlank pads
to 456. -/
theorem claim3_counterexample :
    (scanlineRun spriteOamState 0 false 0).map (fun r => r.2.2.2.1) = some 462 ∧
    (462 : Nat) ≠ 456 := by
  constructor
  · decide
  · decide

/-- Claim C3, amended: a visible scanline yields `max 456 cEnd + 6 * s` dots
where `s` counts the mode-3 sprite fetches (so sprite-fetch dots are extra,
NOT included in the 456) and `cEnd` is the `cycles` counter at the end of
mode 3; a frame is exactly 154 scanlines (the last 10 being the 456-dot
VBlank lines) whose dot counts, each at least 456, sum to the frame total;
on the reset PPU state a scanline is exactly 456 dots with 0 sprite fetches,
and with one sprite fetch it is 456 + 6 dots. -/
theorem claim3_theorem :
    (∀ (st : PpuState) (scanline : Nat) (wy : Bool) (wl : Nat)
        (r : PpuState × Bool × Nat × Nat × Nat),
      scanlineRun st scanline wy wl = some r →
      ∃ c, 80 ≤ c ∧ r.2.2.2.1 = max 456 c + 6 * r.2.2.2.2) ∧
    (∀ st : PpuState,
      match frameRun st with
      | none => True
      | some (_, total, lines) =>
        lines.length = 154 ∧ total = lines.sum ∧
          lines.drop 144 = List.replicate 10 456 ∧ ∀ y ∈ lines, 456 ≤ y) ∧
    (scanlineRun PpuState.new 0 false 0).map (fun r => r.2.2.2) = some (456, 0) ∧
    (scanlineRun spriteOamState 0 false 0).map (fun r => r.2.2.2)
      = some (456 + 6 * 1, 1) := by
  refine ⟨scanlineRun_shape, ?_, by decide, by decide⟩
  intro st
  unfold frameRun
  cases hv : visibleLoop 144 st false 0 0 [] with
  | none => trivial
  | some q =>
    obtain ⟨st1, wy1, wl1, acc, lines⟩ := q
    obtain ⟨hlen, hsum, hmem⟩ := visibleLoop_shape _ _ _ _ _ _ _ _ _ _ _ hv
    simp only [List.length_nil, List.sum_nil] at hlen hsum
    have hrep : (List.replicate 10 456).sum = 4560 := by decide
    refine ⟨?_, ?_, ?_, ?_⟩
    · rw [(vblankLoop_shape 10 _ acc lines).2]
      simp only [List.length_append, List.length_replicate]
      omega
    · rw [(vblankLoop_shape 10 _ acc lines).1, (vblankLoop_shape 10 _ acc lines).2,
        List.sum_append, hrep]
      omega
    · rw [(vblankLoop_shape 10 _ acc lines).2,
        show (144 : Nat) = lines.length by omega, List.drop_left]
    · intro y hy
      rw [(vblankLoop_shape 10 _ acc lines).2] at hy
      rcases List.mem_append.mp hy with h1 | h1
      · rcases hmem y h1 with h2 | h2
        · exact absurd h2 (List.not_mem_nil y)
        · exact h2
      · rw [List.eq_of_mem_replicate h1]

/-- Claim C3 witness: the per-scanline dot accounting instantiated on
scanline 0 of the reset PPU state (456 dots, 0 sprite fetches). -/
theorem claim3_witness :
    ∃ r : PpuState × Bool × Nat × Nat × Nat,
      scanlineRun PpuState.new 0 false 0 = some r ∧
      ∃ c, 80 ≤ c ∧ r.2.2.2.1 = max 456 c + 6 * r.2.2.2.2 := by
  obtain ⟨r, hr, -⟩ := Option.map_eq_some'.mp claim3_theorem.2.2.1
  exact ⟨r, hr, claim3_theorem.1 PpuState.new 0 false 0 r hr⟩

end GbSpec
